import Mathlib

/-!
Shallow embedding of the monetrix FMP API client
(`src/monetrix/api_clients/fmp_client.py` and
`src/monetrix/api_clients/fmp_parsers.py`).

Python strings are modelled as `List Char`; JSON payloads as the `Json`
inductive below (Python `dict` → association list, first binding wins,
matching unique-key dicts); the HTTP transport is modelled by the
`HttpOutcome` type (network failure / undecodable body / decoded JSON),
so `_request_json` becomes a pure function of the transport outcome.
-/

namespace Monetrix

/-- Python `str`, modelled as a list of characters. -/
abbrev Str := List Char

/-- Coerce a Lean string literal to the `Str` model. -/
def S (s : String) : Str := s.data

/-- Python `str.lower()` (per-character lowering; adequate for the ASCII
keyword constants the client compares against). -/
def lower (s : Str) : Str := s.map Char.toLower

/-- Python `str.strip()`: drop leading and trailing whitespace. -/
def strip (s : Str) : Str :=
  ((s.dropWhile Char.isWhitespace).reverse.dropWhile Char.isWhitespace).reverse

/-- Helper for `containsSub`: does `needle` occur starting at some
position of the second argument? -/
def containsSubAux (needle : Str) : Str → Bool
  | [] => needle.isEmpty
  | c :: rest => needle.isPrefixOf (c :: rest) || containsSubAux needle rest

/-- Python `needle in haystack` on strings. -/
def containsSub (haystack needle : Str) : Bool :=
  containsSubAux needle haystack

/-- Python `" ".join(s.split())`: collapse whitespace runs to single
spaces and drop leading/trailing whitespace. -/
def collapseWs (s : Str) : Str :=
  (((s.splitOnP Char.isWhitespace).filter (fun part => !part.isEmpty)).intersperse (S " ")).flatten

/-- Decimal rendering of a natural number (Python f-string interpolation
of an int). -/
def natToStr (n : Nat) : Str := Nat.toDigits 10 n

/-- The closed error taxonomy (`ErrorCategory` Literal in the source). -/
inductive ErrorCategory where
  | auth
  | plan
  | rate_limit
  | not_found
  | upstream
  | network
  | decode
  | empty
  | invalid_input
  | config
deriving DecidableEq

/-- Decoded JSON values. Python distinguishes `bool`/`int`/`float`
(relevant to `to_float`'s isinstance checks), so the model does too. -/
inductive Json where
  | null
  | bool (b : Bool)
  | int (i : Int)
  | float (q : Rat)
  | str (s : Str)
  | arr (items : List Json)
  | obj (entries : List (Str × Json))

instance : Inhabited Json := ⟨.null⟩

/-- Python `dict.get(key)` on the association-list model of a dict
(first binding wins). -/
def lookupField : List (Str × Json) → Str → Option Json
  | [], _ => none
  | (k, v) :: rest, key => if k = key then some v else lookupField rest key

/-- `FMPResponse` dataclass. -/
structure FMPResponse where
  ok : Bool
  data : Option Json
  category : Option ErrorCategory
  status_code : Option Nat
  message : Str

/-- `_ok` helper. -/
def ok_response (data : Json) (status_code : Option Nat) : FMPResponse :=
  { ok := true, data := some data, category := none, status_code := status_code,
    message := [] }

/-- `_fail` helper. -/
def fail_response (category : ErrorCategory) (message : Str)
    (status_code : Option Nat) (data : Option Json) : FMPResponse :=
  { ok := false, data := data, category := some category,
    status_code := status_code, message := message }

/-- `LEGACY_ENDPOINT_MARKER` constant. -/
def LEGACY_ENDPOINT_MARKER : Str := S "legacy endpoint"

/-- `_status_to_category`. -/
def status_to_category (status_code : Option Nat) : ErrorCategory :=
  if status_code = some 402 then .plan
  else if status_code = some 401 ∨ status_code = some 403 then .auth
  else if status_code = some 429 then .rate_limit
  else if status_code = some 404 then .not_found
  else .upstream

/-- The provider-error keys probed by `_extract_api_error_message`, in
source order. -/
def error_message_keys : List Str := [S "Error Message", S "error", S "message"]

/-- One iteration of the `_extract_api_error_message` key loop: the
stripped value when the key holds a string with non-blank strip. -/
def probe_error_key (entries : List (Str × Json)) (key : Str) : Option Str :=
  match lookupField entries key with
  | some (.str v) => if strip v ≠ [] then some (strip v) else none
  | _ => none

/-- `_extract_api_error_message`: first key among `error_message_keys`
whose value is a string with non-blank strip; returns the stripped value. -/
def extract_api_error_message (payload : Json) : Option Str :=
  match payload with
  | .obj entries => (error_message_keys.filterMap (probe_error_key entries)).head?
  | _ => none

/-- `_message_to_category`: keyword heuristics over the lowered message. -/
def message_to_category (message : Str) : ErrorCategory :=
  let normalized := lower message
  if containsSub normalized LEGACY_ENDPOINT_MARKER then .auth
  else if containsSub normalized (S "subscription") ∨ containsSub normalized (S "upgrade") then .plan
  else if containsSub normalized (S "invalid api key") ∨ containsSub normalized (S "unauthorized") then .auth
  else if containsSub normalized (S "rate limit") then .rate_limit
  else if containsSub normalized (S "not found") then .not_found
  else .upstream

/-- The transport outcome seen by `_request_json`: the `requests.get`
call raised, or returned a body that is not JSON, or returned a decoded
JSON payload, in each case with the HTTP status code. -/
inductive HttpOutcome where
  | network_error (exc : Str)
  | bad_json (status : Nat) (text : Str)
  | good_json (status : Nat) (payload : Json)

/-- `_request_json`, as a pure function of the transport outcome
(logging is modelled separately by `request_json_logs`). -/
def request_json (outcome : HttpOutcome) : FMPResponse :=
  match outcome with
  | .network_error _ =>
      fail_response .network (S "Network error while contacting market data provider.") none none
  | .bad_json status text =>
      let body_snippet := (collapseWs text).take 220
      let state :=
        if 400 ≤ status then
          if status = 402 then
            (status_to_category (some status),
             S "Technical indicators require a higher FMP subscription tier.", false)
          else if !body_snippet.isEmpty then
            (status_to_category (some status), body_snippet, false)
          else
            (status_to_category (some status),
             S "Received invalid JSON from market data provider.", !body_snippet.isEmpty)
        else
          (ErrorCategory.decode,
           S "Received invalid JSON from market data provider.", !body_snippet.isEmpty)
      let message :=
        if state.2.2 then strip (state.2.1 ++ S " " ++ body_snippet) else state.2.1
      fail_response state.1 message (some status) none
  | .good_json status payload =>
      let provider_error := extract_api_error_message payload
      if 400 ≤ status ∨ provider_error.isSome then
        let category0 := status_to_category (some status)
        let category :=
          match provider_error with
          | some msg => if category0 = .upstream then message_to_category msg else category0
          | none => category0
        let message := provider_error.getD (S "Request to market data provider failed.")
        fail_response category message (some status) (some payload)
      else
        ok_response payload (some status)

/-! ## fmp_parsers: numeric coercion and record extraction -/

/-- Value of a list of decimal digit characters. -/
def digitsVal (ds : Str) : Nat :=
  ds.foldl (fun acc c => 10 * acc + (c.toNat - 48)) 0

/-- Exponent suffix of a float literal (`e`/`E`, optional sign, digits);
empty input means exponent zero. -/
def parseExpSuffix (s : Str) : Option Int :=
  match s with
  | [] => some 0
  | e :: rest =>
      if e = 'e' ∨ e = 'E' then
        let signAndRest : Int × Str :=
          match rest with
          | '+' :: r => (1, r)
          | '-' :: r => (-1, r)
          | r => (1, r)
        let ds := signAndRest.2.takeWhile Char.isDigit
        if ds.isEmpty || !(signAndRest.2.dropWhile Char.isDigit).isEmpty then none
        else some (signAndRest.1 * (digitsVal ds : Int))
      else none

/-- Python `float(s)` on an already-stripped unsigned string, for the
finite decimal/exponent grammar (`digits[.digits][eE[+-]digits]`, with
at least one mantissa digit); `inf`/`nan` and underscore digit
separators are outside the modelled grammar. The value is assembled
with `mkRat` on the scaled integer mantissa. -/
def parseUnsignedFloat (s : Str) : Option Rat :=
  let intPart := s.takeWhile Char.isDigit
  let rest := s.dropWhile Char.isDigit
  let core : Option (Nat × Nat × Str) :=
    match rest with
    | '.' :: rest2 =>
        let fracPart := rest2.takeWhile Char.isDigit
        if intPart.isEmpty && fracPart.isEmpty then none
        else some (digitsVal (intPart ++ fracPart), fracPart.length, rest2.dropWhile Char.isDigit)
    | _ => if intPart.isEmpty then none else some (digitsVal intPart, 0, rest)
  match core with
  | none => none
  | some (m, fracLen, suffix) =>
      match parseExpSuffix suffix with
      | none => none
      | some e => some (mkRat (m * 10 ^ e.toNat) (10 ^ (fracLen + (-e).toNat)))

/-- Python `float(s)` (finite-grammar model, see `parseUnsignedFloat`). -/
def parsePyFloat (s : Str) : Option Rat :=
  match s with
  | '+' :: rest => parseUnsignedFloat rest
  | '-' :: rest => (parseUnsignedFloat rest).map (fun q => mkRat (-q.num) q.den)
  | _ => parseUnsignedFloat s

/-- `to_float` from fmp_parsers: booleans never coerce, numeric types
pass through, strings are stripped, `%`/`,`-purged and parsed, anything
else (and a blank or unparseable string) yields no value. -/
def to_float : Json → Option Rat
  | .bool _ => none
  | .int i => some (i : Rat)
  | .float q => some q
  | .str s =>
      let normalized := (strip s).filter (fun c => !(c == '%' || c == ','))
      if normalized.isEmpty then none
      else parsePyFloat normalized
  | _ => none

/-- `to_float` applied to a `dict.get` result (Python `None` for a
missing key coerces to no value). -/
def to_float_opt : Option Json → Option Rat
  | some v => to_float v
  | none => none

/-- The wrapper keys probed by `records_from_payload`, in source order. -/
def WRAPPER_KEYS : List Str :=
  [S "data", S "results", S "quotes", S "historical", S "symbolsList"]

/-- Filter a JSON list to its mapping-typed elements (`dict(item)`). -/
def dict_items_of_list (items : List Json) : List (List (Str × Json)) :=
  items.filterMap (fun item =>
    match item with
    | .obj entries => some entries
    | _ => none)

/-- `records_from_payload`: a list filters to its dict elements; a dict
probes the wrapper keys in order and extracts the first list-valued one;
anything else is "no extraction possible" (`None`). -/
def records_from_payload : Json → Option (List (List (Str × Json)))
  | .arr items => some (dict_items_of_list items)
  | .obj entries =>
      (WRAPPER_KEYS.filterMap (fun key =>
        match lookupField entries key with
        | some (.arr items) => some (dict_items_of_list items)
        | _ => none)).head?
  | _ => none

/-- `records_from_payload(response.data)` where the payload slot may be
Python `None` (never a list nor a mapping, so extraction yields `None`). -/
def records_from_payload_opt : Option Json → Option (List (List (Str × Json)))
  | some payload => records_from_payload payload
  | none => none

/-- Python dict item assignment `d[key] = v`: replace in place if the
key exists, else append. -/
def setField : List (Str × Json) → Str → Json → List (Str × Json)
  | [], key, v => [(key, v)]
  | (k, w) :: rest, key, v =>
      if k = key then (k, v) :: rest else (k, w) :: setField rest key v

/-- Python `key in d`. -/
def hasField (entries : List (Str × Json)) (key : Str) : Bool :=
  (lookupField entries key).isSome

/-- Python `d.get(key)` viewed through an `is None` check: a JSON null
value and a missing key are both Python `None`. -/
def getNonNull (entries : List (Str × Json)) (key : Str) : Option Json :=
  match lookupField entries key with
  | some .null => none
  | other => other

/-- Is this `dict.get` result a Python `str`? -/
def isStrVal : Option Json → Bool
  | some (.str _) => true
  | _ => false

/-- `normalize_quote_record`. -/
def normalize_quote_record (record : List (Str × Json)) : List (Str × Json) :=
  let symbol := lookupField record (S "symbol")
  let ticker := lookupField record (S "ticker")
  let normalized :=
    if !isStrVal symbol && isStrVal ticker then
      setField record (S "symbol") (ticker.getD .null)
    else record
  let normalized :=
    if !isStrVal ticker && isStrVal symbol then
      setField normalized (S "ticker") (symbol.getD .null)
    else normalized
  let normalized :=
    if !hasField normalized (S "changesPercentage") then
      let percent_value :=
        match getNonNull normalized (S "changePercentage") with
        | some v => some v
        | none => getNonNull normalized (S "changesPercent")
      match to_float_opt percent_value with
      | some parsed => setField normalized (S "changesPercentage") (.float parsed)
      | none => normalized
    else normalized
  let normalized :=
    if !hasField normalized (S "change") then
      let change_value :=
        match getNonNull normalized (S "priceChange") with
        | some v => some v
        | none => getNonNull normalized (S "changes")
      match to_float_opt change_value with
      | some parsed => setField normalized (S "change") (.float parsed)
      | none => normalized
    else normalized
  if !hasField normalized (S "changes") && hasField normalized (S "change") then
    setField normalized (S "changes") ((lookupField normalized (S "change")).getD .null)
  else normalized

/-- `normalize_mover_record`. -/
def normalize_mover_record (record : List (Str × Json)) : List (Str × Json) :=
  let normalized := normalize_quote_record record
  let normalized :=
    if !hasField normalized (S "name") then
      match ([S "companyName", S "company", S "shortName"].filterMap (fun key =>
        match lookupField normalized key with
        | some (.str v) => if strip v ≠ [] then some (Json.str v) else none
        | _ => none)).head? with
      | some v => setField normalized (S "name") v
      | none => normalized
    else normalized
  let normalized :=
    match to_float_opt (lookupField normalized (S "changesPercentage")) with
    | some percent => setField normalized (S "changesPercentage") (.float percent)
    | none => normalized
  match to_float_opt (lookupField normalized (S "price")) with
  | some price => setField normalized (S "price") (.float price)
  | none => normalized

/-! ## format_api_error -/

/-- The per-category user-facing messages (the `category_messages` dict,
with `.get(result.category or "", fallback)` semantics: `upstream` and
an absent category both yield the fallback). -/
def category_message (category : Option ErrorCategory) (fallback : Str) : Str :=
  match category with
  | some .auth => S "Market data API key is invalid or unauthorized."
  | some .plan => S "Market data endpoint requires a higher FMP subscription tier."
  | some .rate_limit => S "Market data API limit reached. Try again shortly."
  | some .not_found => S "Requested market data endpoint was not found."
  | some .network => S "Network error while reaching the market data provider."
  | some .decode => S "Market data provider returned an invalid response format."
  | some .empty => S "No market data returned for this request."
  | some .invalid_input => S "Invalid input for market data request."
  | some .config => S "Market data API key is missing or invalidly configured."
  | some .upstream => fallback
  | none => fallback

/-- The fixed legacy-endpoint explanation. -/
def legacy_endpoint_message : Str :=
  S "Market data API key is unauthorized for legacy endpoints. Use stable endpoint routes and verify deployed version."

/-- The parenthesised diagnostic hints: status code when present, then a
whitespace-collapsed 140-character excerpt of the raw message when the
raw message is non-empty. -/
def error_hints (result : FMPResponse) : List Str :=
  (match result.status_code with
   | some code => [S "status " ++ natToStr code]
   | none => []) ++
  (if !result.message.isEmpty then [(collapseWs result.message).take 140] else [])

/-- `format_api_error`. -/
def format_api_error (result : FMPResponse) (fallback : Str) : Str :=
  if result.ok then fallback
  else
    let legacy_auth_error :=
      result.category = some ErrorCategory.auth ∧
        containsSub (lower result.message) LEGACY_ENDPOINT_MARKER = true
    let message :=
      if legacy_auth_error then legacy_endpoint_message
      else category_message result.category fallback
    let hints := error_hints result
    if !hints.isEmpty then
      message ++ S " (" ++ (hints.intersperse (S "; ")).flatten ++ S ")"
    else message

/-! ## URL building, percent-encoding and credential redaction -/

/-- `FMP_BASE_URL` constant. -/
def FMP_BASE_URL : Str := S "https://financialmodelingprep.com/stable"

/-- The characters `urllib.parse.quote_plus` leaves unescaped
(CPython's `_ALWAYS_SAFE` with an empty `safe` argument). -/
def ALWAYS_SAFE : Str :=
  S "ABCDEFGHIJKLMNOPQRSTUVWXYZabcdefghijklmnopqrstuvwxyz0123456789_.-~"

/-- Upper-case hexadecimal digit (for a value below 16). -/
def hexDigit (n : Nat) : Char :=
  if n < 10 then Char.ofNat (48 + n) else Char.ofNat (55 + n)

/-- UTF-8 bytes of a character (percent-encoding works bytewise). -/
def utf8Bytes (c : Char) : List Nat :=
  let n := c.toNat
  if n < 128 then [n]
  else if n < 2048 then [192 + n / 64, 128 + n % 64]
  else if n < 65536 then [224 + n / 4096, 128 + (n / 64) % 64, 128 + n % 64]
  else [240 + n / 262144, 128 + (n / 4096) % 64, 128 + (n / 64) % 64, 128 + n % 64]

/-- `%XY` escape of one byte. -/
def pctByte (b : Nat) : Str := ['%', hexDigit (b / 16), hexDigit (b % 16)]

/-- `quote_plus` on one character. -/
def quotePlusChar (c : Char) : Str :=
  if c ∈ ALWAYS_SAFE then [c]
  else if c = ' ' then ['+']
  else ((utf8Bytes c).map pctByte).flatten

/-- `urllib.parse.quote_plus` with empty `safe`. -/
def quotePlus (s : Str) : Str := (s.map quotePlusChar).flatten

/-- `urllib.parse.urlencode` on a sequence of pairs. -/
def urlencode (query : List (Str × Str)) : Str :=
  ((query.map (fun kv => quotePlus kv.1 ++ ['='] ++ quotePlus kv.2)).intersperse ['&']).flatten

/-- Python dict item assignment for string-valued query dicts. -/
def setQueryField : List (Str × Str) → Str → Str → List (Str × Str)
  | [], key, v => [(key, v)]
  | (k, w) :: rest, key, v =>
      if k = key then (k, v) :: rest else (k, w) :: setQueryField rest key v

/-- `_build_url`: query dict seeded with the credential, `None`-valued
parameters dropped, remaining values already stringified; leading `/`
stripped from the endpoint before joining to the base URL. -/
def build_url (endpoint : Str) (api_key : Str) (params : List (Str × Option Str)) : Str :=
  let query := params.foldl (fun q kv =>
    match kv.2 with
    | none => q
    | some v => setQueryField q kv.1 v) [(S "apikey", api_key)]
  let encoded_query := urlencode query
  let normalized_endpoint := endpoint.dropWhile (fun c => c == '/')
  FMP_BASE_URL ++ ['/'] ++ normalized_endpoint ++ ['?'] ++ encoded_query

/-- `str.split(sep)` for a one-character separator (as used on `&`-,
`=`- and `-`-separated fields). -/
def splitSep (sep : Char) : Str → List Str
  | [] => [[]]
  | c :: rest =>
      if c = sep then [] :: splitSep sep rest
      else (splitSep sep rest).modifyHead (fun part => c :: part)

/-- Value of a hexadecimal digit character. -/
def hexVal (c : Char) : Option Nat :=
  if '0' ≤ c ∧ c ≤ '9' then some (c.toNat - 48)
  else if 'A' ≤ c ∧ c ≤ 'F' then some (c.toNat - 55)
  else if 'a' ≤ c ∧ c ≤ 'f' then some (c.toNat - 87)
  else none

/-- `urllib.parse.unquote_plus`: `+` becomes a space, `%XY` escapes are
decoded (modelled byte-per-character; multi-byte UTF-8 escape runs are
outside the model, which none of the client's fixed key names use). -/
def unquotePlus : Str → Str
  | [] => []
  | '+' :: rest => ' ' :: unquotePlus rest
  | '%' :: a :: b :: rest =>
      match hexVal a, hexVal b with
      | some x, some y => Char.ofNat (16 * x + y) :: unquotePlus rest
      | _, _ => '%' :: unquotePlus (a :: b :: rest)
  | c :: rest => c :: unquotePlus rest

/-- One `name=value` fragment of `parse_qsl`: empty fragments are
skipped; a missing `=` yields a blank value (`keep_blank_values=True`);
name and value are unquoted. -/
def parse_qsl_pair (pair : Str) : Option (Str × Str) :=
  if pair.isEmpty then none
  else
    let name := pair.takeWhile (fun c => c ≠ '=')
    match pair.dropWhile (fun c => c ≠ '=') with
    | [] => some (unquotePlus name, [])
    | _ :: value => some (unquotePlus name, unquotePlus value)

/-- `urllib.parse.parse_qsl` with `keep_blank_values=True`. -/
def parse_qsl (query : Str) : List (Str × Str) :=
  (splitSep '&' query).filterMap parse_qsl_pair

/-- `_redact_api_key`: re-parse the query string, mask every value whose
key case-insensitively equals `apikey`, re-encode, reassemble. -/
def redact_api_key (url : Str) : Str :=
  let front := url.takeWhile (fun c => c ≠ '?')
  match url.dropWhile (fun c => c ≠ '?') with
  | [] => url
  | _ :: query =>
      let redacted_items := (parse_qsl query).map (fun kv =>
        if lower kv.1 = S "apikey" then (kv.1, S "***") else kv)
      front ++ ['?'] ++ urlencode redacted_items

/-- `_log` prefix. -/
def log_line (message : Str) : Str := S "[fmp_client] " ++ message

/-- Printed form of a category (the Python category literals). -/
def category_str : ErrorCategory → Str
  | .auth => S "auth"
  | .plan => S "plan"
  | .rate_limit => S "rate_limit"
  | .not_found => S "not_found"
  | .upstream => S "upstream"
  | .network => S "network"
  | .decode => S "decode"
  | .empty => S "empty"
  | .invalid_input => S "invalid_input"
  | .config => S "config"

/-- Printed form of an optional category / status (f-string of an
`Optional` prints `None` when absent). -/
def opt_category_str : Option ErrorCategory → Str
  | some c => category_str c
  | none => S "None"

/-- Printed form of an optional status code. -/
def opt_status_str : Option Nat → Str
  | some code => natToStr code
  | none => S "None"

/-- The log lines `_request_json` writes, per transport outcome; every
URL interpolation goes through `_redact_api_key`. -/
def request_json_logs (url : Str) (outcome : HttpOutcome) : List Str :=
  let redacted_url := redact_api_key url
  match outcome with
  | .network_error exc =>
      [log_line (S "network error url=" ++ redacted_url ++ S ": " ++ exc)]
  | .bad_json status text =>
      let body_snippet := (collapseWs text).take 220
      [log_line (S "json decode error status=" ++ natToStr status ++ S " url=" ++
        redacted_url ++ S " body=" ++ body_snippet)]
  | .good_json status payload =>
      if 400 ≤ status ∨ (extract_api_error_message payload).isSome then
        let r := request_json (.good_json status payload)
        [log_line (S "api error category=" ++ opt_category_str r.category ++
          S " status=" ++ opt_status_str r.status_code ++ S " url=" ++ redacted_url ++
          S " message=" ++ r.message)]
      else []

/-! ## Dates and dataframe modelling -/

/-- Python `str.upper()` (per-character, adequate for ASCII symbols). -/
def upper (s : Str) : Str := s.map Char.toUpper

/-- Decimal rendering of an integer. -/
def intToStr (i : Int) : Str :=
  if i < 0 then '-' :: natToStr i.natAbs else natToStr i.toNat

/-- A calendar date (`datetime.date` / `pd.Timestamp` at day
resolution). -/
structure PyDate where
  year : Nat
  month : Nat
  day : Nat
deriving DecidableEq

/-- Order-embedding of dates into naturals: lexicographic on
(year, month, day), the chronological order. -/
def dateKey (d : PyDate) : Nat := d.year * 10000 + d.month * 100 + d.day

/-- `pd.to_datetime` on an ISO `YYYY-MM-DD` string (the provider's date
format); other formats are outside the model. -/
def parse_iso_date (s : Str) : Option PyDate :=
  match splitSep '-' s with
  | [y, m, d] =>
      if !y.isEmpty ∧ y.all Char.isDigit ∧ !m.isEmpty ∧ m.all Char.isDigit ∧
          !d.isEmpty ∧ d.all Char.isDigit then
        let mv := digitsVal m
        let dv := digitsVal d
        if 1 ≤ mv ∧ mv ≤ 12 ∧ 1 ≤ dv ∧ dv ≤ 31 then some ⟨digitsVal y, mv, dv⟩
        else none
      else none
  | _ => none

/-- `pd.to_datetime` on one dataframe cell: a missing cell (or JSON
null) is `NaT`; strings parse as ISO dates. -/
def to_datetime_cell : Option Json → Option PyDate
  | some (.str s) => parse_iso_date s
  | _ => none

/-- `sort_index` comparison on the datetime index (`NaT` sorts last). -/
def date_le (a b : Option PyDate) : Bool :=
  match a, b with
  | some x, some y => decide (dateKey x ≤ dateKey y)
  | some _, none => true
  | none, some _ => false
  | none, none => true

/-- The row ordering used by `sort_index`: compare the datetime index
values. -/
def rowLe (a b : Option PyDate × List (Str × Json)) : Prop :=
  date_le a.1 b.1 = true

instance : DecidableRel rowLe := fun a b => decEq (date_le a.1 b.1) true

/-- Inclusive-window membership test `(index >= start) & (index <= end)`
(`NaT` compares false). -/
def in_window (start_date end_date : PyDate) (d : Option PyDate) : Bool :=
  match d with
  | some x => decide (dateKey start_date ≤ dateKey x) && decide (dateKey x ≤ dateKey end_date)
  | none => false

/-- `pd.DataFrame(records)` column list: union of the record keys in
first-appearance order. -/
def dataframe_columns (records : List (List (Str × Json))) : List Str :=
  records.foldl (fun acc r => r.foldl (fun a kv => if kv.1 ∈ a then a else a ++ [kv.1]) acc) []

/-- The five canonical OHLCV columns. -/
def canonical_columns : List Str :=
  [S "open", S "high", S "low", S "close", S "volume"]

/-- The alternate-name rename table, in source (dict-insertion) order. -/
def rename_map : List (Str × Str) :=
  [(S "openPrice", S "open"), (S "highPrice", S "high"), (S "lowPrice", S "low"),
   (S "closePrice", S "close"), (S "tradingVolume", S "volume")]

/-- The rename loop: `df[target] = df[source]` when the source column
exists and the canonical target does not (a column copy: rows lacking
the source key get NaN, modelled as JSON null). -/
def apply_renames (cols : List Str) (rows : List (List (Str × Json))) :
    List Str × List (List (Str × Json)) :=
  rename_map.foldl (fun st kv =>
    if kv.1 ∈ st.1 ∧ kv.2 ∉ st.1 then
      (st.1 ++ [kv.2], st.2.map (fun r => setField r kv.2 ((lookupField r kv.1).getD .null)))
    else st) (cols, rows)

/-- A date-indexed dataframe: ordered column list plus rows of
(index value, cell map). -/
structure HistoricalFrame where
  cols : List Str
  rows : List (Option PyDate × List (Str × Json))

/-- `normalize_historical_dataframe`; the second component is the list
of messages sent to the `on_error` sink. -/
def normalize_historical_dataframe (records : List (List (Str × Json)))
    (start_date end_date : PyDate) (symbol : Str) :
    Option HistoricalFrame × List Str :=
  if records.isEmpty then (some ⟨[], []⟩, [])
  else
    let st := apply_renames (dataframe_columns records) records
    if S "date" ∉ st.1 then
      (none, [S "historical response missing date column symbol=" ++ symbol])
    else
      let indexed := st.2.map (fun r => (to_datetime_cell (lookupField r (S "date")), r))
      let sorted := List.insertionSort rowLe indexed
      let windowed := sorted.filter (fun row => in_window start_date end_date row.1)
      let filled := canonical_columns.foldl (fun acc col =>
        if col ∈ acc.1 then acc
        else (acc.1 ++ [col], acc.2.map (fun row => (row.1, setField row.2 col (.int 0)))))
        (st.1.erase (S "date"), windowed)
      (some ⟨canonical_columns ++ filled.1.filter (fun c => c ∉ canonical_columns),
        filled.2⟩, [])

/-! ## Public entry points, over a transport oracle -/

/-- `normalize_indicator_timeframe`. -/
def normalize_indicator_timeframe (timeframe : Str) : Str :=
  let normalized := lower (strip timeframe)
  if normalized = S "daily" ∨ normalized = S "1day" then S "1day" else normalized

/-- `extract_indicator_column` over the post-`set_index` column list. -/
def extract_indicator_column (cols : List Str) (indicator_key : Str) : Option Str :=
  let candidates := [indicator_key, upper indicator_key, lower indicator_key,
    S "value", S "indicator", S "technicalIndicator"]
  match candidates.find? (fun c => decide (c ∈ cols)) with
  | some c => some c
  | none => (cols.filter (fun c => decide (c ∉ canonical_columns))).head?

/-- `get_stock_quote`, with the HTTP transport abstracted as an oracle
from URL to outcome. -/
def get_stock_quote (fetch : Str → HttpOutcome) (symbol api_key : Str) : FMPResponse :=
  if api_key.isEmpty then
    fail_response .config (S "API key was not provided.") none none
  else
    let normalized_symbol := upper (strip symbol)
    if normalized_symbol.isEmpty then
      fail_response .invalid_input (S "Stock symbol was not provided.") none none
    else
      let url := build_url (S "quote") api_key [(S "symbol", some normalized_symbol)]
      let response := request_json (fetch url)
      if response.ok = false then response
      else
        match records_from_payload_opt response.data with
        | none =>
            match response.data with
            | some (.obj entries) =>
                ok_response (.obj (normalize_quote_record entries)) response.status_code
            | _ =>
                fail_response .upstream
                  (S "Unexpected response format for quote " ++ normalized_symbol ++ S ".")
                  response.status_code response.data
        | some [] =>
            fail_response .empty
              (S "No quote data returned for " ++ normalized_symbol ++ S ".")
              response.status_code none
        | some (record :: _) =>
            ok_response (.obj (normalize_quote_record record)) response.status_code

/-- `get_market_winners`. -/
def get_market_winners (fetch : Str → HttpOutcome) (api_key : Str) : FMPResponse :=
  if api_key.isEmpty then
    fail_response .config (S "API key was not provided for market gainers.") none none
  else
    let url := build_url (S "biggest-gainers") api_key []
    let response := request_json (fetch url)
    if response.ok = false then response
    else
      match records_from_payload_opt response.data with
      | none =>
          fail_response .upstream (S "Unexpected response format for market gainers.")
            response.status_code response.data
      | some records =>
          ok_response (.arr (records.map (fun r => .obj (normalize_mover_record r))))
            response.status_code

/-- `get_market_losers`. -/
def get_market_losers (fetch : Str → HttpOutcome) (api_key : Str) : FMPResponse :=
  if api_key.isEmpty then
    fail_response .config (S "API key was not provided for market losers.") none none
  else
    let url := build_url (S "biggest-losers") api_key []
    let response := request_json (fetch url)
    if response.ok = false then response
    else
      match records_from_payload_opt response.data with
      | none =>
          fail_response .upstream (S "Unexpected response format for market losers.")
            response.status_code response.data
      | some records =>
          ok_response (.arr (records.map (fun r => .obj (normalize_mover_record r))))
            response.status_code

/-- The indicator endpoint path. -/
def indicator_endpoint (indicator_key : Str) : Str :=
  S "technical-indicators/" ++ indicator_key

/-- Lines 422-476 of `get_technical_indicator_result`: record
extraction, empty check, date indexing/sorting, column resolution; the
resulting `pd.Series` is encoded as a JSON array of (date, value)
objects keyed by the resolved column. -/
def indicator_postprocess (response : FMPResponse) (indicator_key : Str)
    (period : Int) : FMPResponse :=
  match records_from_payload_opt response.data with
  | none =>
      fail_response .upstream
        (S "Unexpected response format for indicator " ++ indicator_key ++ S ".")
        response.status_code response.data
  | some [] =>
      fail_response .empty
        (S "No data returned for indicator " ++ indicator_key ++ S " period " ++
          intToStr period ++ S ".")
        response.status_code none
  | some records =>
      let cols := dataframe_columns records
      if S "date" ∉ cols then
        fail_response .upstream
          (S "Indicator response missing date column for " ++ indicator_key ++ S ".")
          response.status_code response.data
      else
        let indexed := records.map (fun r => (to_datetime_cell (lookupField r (S "date")), r))
        let sorted := List.insertionSort rowLe indexed
        match extract_indicator_column (cols.erase (S "date")) indicator_key with
        | none =>
            fail_response .upstream
              (S "Indicator column missing for " ++ indicator_key ++ S ".")
              response.status_code response.data
        | some column =>
            ok_response (.arr (sorted.map (fun row => .obj
              [(S "date", (lookupField row.2 (S "date")).getD .null),
               (column, (lookupField row.2 column).getD .null)])))
              response.status_code

/-- `get_technical_indicator_result`; the second component is the list
of request URLs issued, in order. -/
def get_technical_indicator_result (fetch : Str → HttpOutcome)
    (api_key symbol : Str) (period : Int) (indicator_type timeframe : Str) :
    FMPResponse × List Str :=
  if api_key.isEmpty ∨ symbol.isEmpty ∨ period ≤ 0 ∨ indicator_type.isEmpty then
    (fail_response .invalid_input (S "Missing required parameters for indicator request.")
      none none, [])
  else
    let normalized_symbol := upper (strip symbol)
    let indicator_key := lower (strip indicator_type)
    let normalized_timeframe := normalize_indicator_timeframe timeframe
    let url := build_url (indicator_endpoint indicator_key) api_key
      [(S "symbol", some normalized_symbol), (S "periodLength", some (intToStr period)),
       (S "timeframe", some normalized_timeframe)]
    let response := request_json (fetch url)
    if response.ok = false ∧
        (response.category = some .not_found ∨ response.category = some .upstream) then
      let fallback_url := build_url (indicator_endpoint indicator_key) api_key
        [(S "symbol", some normalized_symbol), (S "period", some (intToStr period)),
         (S "timeframe", some normalized_timeframe)]
      let fallback_response := request_json (fetch fallback_url)
      let chosen := if fallback_response.ok then fallback_response else response
      if chosen.ok = false then (chosen, [url, fallback_url])
      else (indicator_postprocess chosen indicator_key period, [url, fallback_url])
    else
      if response.ok = false then (response, [url])
      else (indicator_postprocess response indicator_key period, [url])

/-- `normalize_forex_record`. -/
def normalize_forex_record (record : List (Str × Json)) (pair : Str) : List (Str × Json) :=
  let normalized := normalize_quote_record record
  let normalized :=
    if !hasField normalized (S "ticker") then setField normalized (S "ticker") (.str pair)
    else normalized
  let normalized :=
    if !hasField normalized (S "symbol") then setField normalized (S "symbol") (.str pair)
    else normalized
  let price_value := to_float_opt (lookupField normalized (S "price"))
  let normalized :=
    match price_value with
    | some p =>
        if !hasField normalized (S "bid") then setField normalized (S "bid") (.float p)
        else normalized
    | none => normalized
  match price_value with
  | some p =>
      if !hasField normalized (S "ask") then setField normalized (S "ask") (.float p)
      else normalized
  | none => normalized

/-- Python `<=` on strings: lexicographic comparison by code point. -/
def strLe : Str → Str → Bool
  | [], _ => true
  | _ :: _, [] => false
  | c :: cs, d :: ds =>
      if c.toNat < d.toNat then true
      else if d.toNat < c.toNat then false
      else strLe cs ds

/-- Propositional form of `strLe`, for the sort used to model Python's
`sorted` on strings. -/
def strLeProp (a b : Str) : Prop := strLe a b = true

instance : DecidableRel strLeProp := fun a b => decEq (strLe a b) true

/-- The `isinstance(data, list) and all(isinstance(item, str) ...)`
probe of `get_forex_pairs_list`: the string items when the payload slot
is a list of strings only. -/
def json_str_items : Option Json → Option (List Str)
  | some (.arr items) =>
      if items.all (fun item =>
          match item with
          | .str _ => true
          | _ => false) then
        some (items.filterMap (fun item =>
          match item with
          | .str s => some s
          | _ => none))
      else none
  | _ => none

/-- The normalized symbols of `get_multiple_stock_quotes`
(`[symbol.strip().upper() for symbol in symbols if symbol.strip()]`). -/
def batch_symbols (symbols : List Str) : List Str :=
  (symbols.filter (fun s => !(strip s).isEmpty)).map (fun s => upper (strip s))

/-- `",".join(normalized_symbols)`. -/
def batch_symbols_str (symbols : List Str) : Str :=
  ((batch_symbols symbols).intersperse (S ",")).flatten

/-- `get_multiple_stock_quotes`. -/
def get_multiple_stock_quotes (fetch : Str → HttpOutcome) (api_key : Str)
    (symbols : List Str) : FMPResponse :=
  if api_key.isEmpty then
    fail_response .config (S "API key not provided for multiple quotes.") none none
  else if (batch_symbols symbols).isEmpty then
    ok_response (.arr []) none
  else
    let symbols_str := batch_symbols_str symbols
    let url := build_url (S "batch-quote") api_key [(S "symbols", some symbols_str)]
    let response := request_json (fetch url)
    if response.ok = false then response
    else
      match records_from_payload_opt response.data with
      | none =>
          fail_response .upstream
            (S "Unexpected response format for quotes " ++ symbols_str ++ S ".")
            response.status_code response.data
      | some records =>
          ok_response (.arr (records.map (fun r => .obj (normalize_quote_record r))))
            response.status_code

/-- `get_forex_pairs_list` (Python `sorted` modelled by the stable
lexicographic insertion sort; `sorted(set(pairs))` by sorting the
deduplicated pair list). -/
def get_forex_pairs_list (fetch : Str → HttpOutcome) (api_key : Str) : FMPResponse :=
  if api_key.isEmpty then
    fail_response .config (S "API key not provided for Forex pairs list.") none none
  else
    let url := build_url (S "forex-list") api_key []
    let response := request_json (fetch url)
    if response.ok = false then response
    else
      match json_str_items response.data with
      | some strs =>
          ok_response (.arr ((List.insertionSort strLeProp strs).map Json.str))
            response.status_code
      | none =>
          match records_from_payload_opt response.data with
          | none =>
              fail_response .upstream (S "Unexpected response format for Forex pairs list.")
                response.status_code response.data
          | some records =>
              let pairs := records.filterMap (fun record =>
                ([S "symbol", S "ticker", S "currencyPair", S "pair"].filterMap (fun key =>
                  match lookupField record key with
                  | some (.str v) => if strip v ≠ [] then some (upper (strip v)) else none
                  | _ => none)).head?)
              let unique_pairs := List.insertionSort strLeProp pairs.dedup
              if !unique_pairs.isEmpty then
                ok_response (.arr (unique_pairs.map Json.str)) response.status_code
              else
                fail_response .upstream
                  (S "Could not parse Forex pair list from provider response.")
                  response.status_code response.data

/-- `get_forex_quote`. -/
def get_forex_quote (fetch : Str → HttpOutcome) (api_key pair : Str) : FMPResponse :=
  if api_key.isEmpty then
    fail_response .config (S "API key not provided for Forex quote.") none none
  else
    let normalized_pair := upper (strip pair)
    if normalized_pair.isEmpty then
      fail_response .invalid_input (S "Forex pair was not provided.") none none
    else
      let url := build_url (S "quote") api_key [(S "symbol", some normalized_pair)]
      let response := request_json (fetch url)
      if response.ok = false then response
      else
        match records_from_payload_opt response.data with
        | none =>
            fail_response .upstream
              (S "Unexpected response format for Forex quote " ++ normalized_pair ++ S ".")
              response.status_code response.data
        | some [] =>
            fail_response .empty
              (S "No Forex quote data returned for " ++ normalized_pair ++ S ".")
              response.status_code none
        | some records =>
            ok_response
              (.arr (records.map (fun r => .obj (normalize_forex_record r normalized_pair))))
              response.status_code

/-- The primary indicator request URL (`periodLength` scheme). -/
def indicator_primary_url (api_key symbol : Str) (period : Int)
    (indicator_type timeframe : Str) : Str :=
  build_url (indicator_endpoint (lower (strip indicator_type))) api_key
    [(S "symbol", some (upper (strip symbol))),
     (S "periodLength", some (intToStr period)),
     (S "timeframe", some (normalize_indicator_timeframe timeframe))]

/-- The fallback indicator request URL (`period` scheme). -/
def indicator_fallback_url (api_key symbol : Str) (period : Int)
    (indicator_type timeframe : Str) : Str :=
  build_url (indicator_endpoint (lower (strip indicator_type))) api_key
    [(S "symbol", some (upper (strip symbol))),
     (S "period", some (intToStr period)),
     (S "timeframe", some (normalize_indicator_timeframe timeframe))]

/-! ## Claim theorems -/

/-- Helper: a decoded-JSON outcome with a sub-400 status and no
provider-embedded error string is a success carrying the payload. -/
theorem request_json_ok_of (status : Nat) (payload : Json)
    (hstatus : status < 400)
    (hnoerr : extract_api_error_message payload = none) :
    request_json (.good_json status payload) = ok_response payload (some status) := by
  simp [request_json, hnoerr, Nat.not_le.mpr hstatus]

/-- C4: For every HTTP status code (including an absent one), the
status-to-category mapping yields 402 → `plan`; 401/403 → `auth`;
429 → `rate_limit`; 404 → `not_found`; every other ≥ 400 status and the
unspecified case → `upstream`. -/
theorem status_category_table (s : Nat) :
    status_to_category (some 402) = .plan ∧
    status_to_category (some 401) = .auth ∧
    status_to_category (some 403) = .auth ∧
    status_to_category (some 429) = .rate_limit ∧
    status_to_category (some 404) = .not_found ∧
    status_to_category none = .upstream ∧
    (400 ≤ s → s ≠ 401 → s ≠ 402 → s ≠ 403 → s ≠ 404 → s ≠ 429 →
      status_to_category (some s) = .upstream) := by
  refine ⟨by decide, by decide, by decide, by decide, by decide, by decide, ?_⟩
  intro _ h401 h402 h403 h404 h429
  simp [status_to_category, h401, h402, h403, h404, h429]

/-- Witness for C4 at status 500. -/
theorem status_category_table_witness : status_to_category (some 500) = .upstream :=
  (status_category_table 500).2.2.2.2.2.2 (by decide) (by decide) (by decide)
    (by decide) (by decide) (by decide)

/-- C8: numeric coercion — booleans never coerce; ints and floats pass
through; strings are stripped, `%`/`,`-purged and parsed, with a blank
result or a parse failure yielding no value; `"1,234.50"` parses to
1234.5 (= 2469/2); other payload shapes yield no value. -/
theorem to_float_spec :
    (∀ b, to_float (.bool b) = none) ∧
    (∀ i : Int, to_float (.int i) = some (i : Rat)) ∧
    (∀ q : Rat, to_float (.float q) = some q) ∧
    (∀ s : Str, ((strip s).filter (fun c => !(c == '%' || c == ','))).isEmpty = true →
      to_float (.str s) = none) ∧
    (∀ s : Str, parsePyFloat ((strip s).filter (fun c => !(c == '%' || c == ','))) = none →
      to_float (.str s) = none) ∧
    to_float (.str (S "1,234.50")) = some (mkRat 2469 2) ∧
    to_float (.str (S "")) = none ∧
    to_float (.str (S "abc")) = none ∧
    to_float .null = none ∧
    (∀ items, to_float (.arr items) = none) ∧
    (∀ entries, to_float (.obj entries) = none) := by
  refine ⟨fun b => rfl, fun i => rfl, fun q => rfl, ?_, ?_, by decide, by decide,
    by decide, rfl, fun _ => rfl, fun _ => rfl⟩
  · intro s h
    simp only [to_float, h, if_true]
  · intro s h
    simp only [to_float, h]
    split <;> simp

/-- Witness for C8 on the hypothesis-bearing conjuncts: a string that is
blank after stripping `%`/`,`, and a non-blank unparseable string. -/
theorem to_float_spec_witness :
    to_float (.str (S " %, ")) = none ∧ to_float (.str (S "12a")) = none :=
  ⟨to_float_spec.2.2.2.1 (S " %, ") (by decide),
   to_float_spec.2.2.2.2.1 (S "12a") (by decide)⟩

/-- C3 counterexample: a mapping payload without any known wrapper key
("no extraction possible") on which the quote entry point nevertheless
returns a success, not an `upstream` failure. -/
theorem extraction_failure_counterexample :
    records_from_payload (.obj [(S "price", .int 1)]) = none ∧
    (get_stock_quote (fun _ => .good_json 200 (.obj [(S "price", .int 1)]))
      (S "AAPL") (S "key")).ok = true ∧
    (get_stock_quote (fun _ => .good_json 200 (.obj [(S "price", .int 1)]))
      (S "AAPL") (S "key")).category = none := by
  refine ⟨rfl, by decide, by decide⟩

/-- C3 (amended): when record extraction yields "no extraction
possible", every public entry point returning a `Response` — market
winners, market losers, the technical indicator, batch quotes, the
forex pairs list and the forex quote — returns an `upstream` failure
with the payload attached; the single-quote entry point does so only
for a payload that is not a mapping, and returns a success with the
normalized single record when the unextractable payload is a bare
mapping. -/
theorem extraction_failure_upstream :
    (∀ (fetch : Str → HttpOutcome) (api_key : Str) (status : Nat) (payload : Json),
      api_key.isEmpty = false →
      fetch (build_url (S "biggest-gainers") api_key []) = .good_json status payload →
      status < 400 →
      extract_api_error_message payload = none →
      records_from_payload payload = none →
      get_market_winners fetch api_key =
        fail_response .upstream (S "Unexpected response format for market gainers.")
          (some status) (some payload)) ∧
    (∀ (fetch : Str → HttpOutcome) (api_key : Str) (status : Nat) (payload : Json),
      api_key.isEmpty = false →
      fetch (build_url (S "biggest-losers") api_key []) = .good_json status payload →
      status < 400 →
      extract_api_error_message payload = none →
      records_from_payload payload = none →
      get_market_losers fetch api_key =
        fail_response .upstream (S "Unexpected response format for market losers.")
          (some status) (some payload)) ∧
    (∀ (fetch : Str → HttpOutcome) (api_key symbol : Str) (status : Nat) (payload : Json),
      api_key.isEmpty = false →
      (upper (strip symbol)).isEmpty = false →
      fetch (build_url (S "quote") api_key [(S "symbol", some (upper (strip symbol)))]) =
        .good_json status payload →
      status < 400 →
      extract_api_error_message payload = none →
      records_from_payload payload = none →
      ((∀ entries, payload ≠ .obj entries) →
        get_stock_quote fetch symbol api_key =
          fail_response .upstream
            (S "Unexpected response format for quote " ++ upper (strip symbol) ++ S ".")
            (some status) (some payload)) ∧
      (∀ entries, payload = .obj entries →
        get_stock_quote fetch symbol api_key =
          ok_response (.obj (normalize_quote_record entries)) (some status))) ∧
    (∀ (fetch : Str → HttpOutcome) (api_key symbol : Str) (period : Int)
        (indicator_type timeframe : Str) (status : Nat) (payload : Json),
      ¬(api_key.isEmpty = true ∨ symbol.isEmpty = true ∨ period ≤ 0 ∨
        indicator_type.isEmpty = true) →
      fetch (indicator_primary_url api_key symbol period indicator_type timeframe) =
        .good_json status payload →
      status < 400 →
      extract_api_error_message payload = none →
      records_from_payload payload = none →
      get_technical_indicator_result fetch api_key symbol period indicator_type timeframe =
        (fail_response .upstream
          (S "Unexpected response format for indicator " ++ lower (strip indicator_type) ++ S ".")
          (some status) (some payload),
         [indicator_primary_url api_key symbol period indicator_type timeframe])) ∧
    (∀ (fetch : Str → HttpOutcome) (api_key : Str) (symbols : List Str)
        (status : Nat) (payload : Json),
      api_key.isEmpty = false →
      (batch_symbols symbols).isEmpty = false →
      fetch (build_url (S "batch-quote") api_key
          [(S "symbols", some (batch_symbols_str symbols))]) = .good_json status payload →
      status < 400 →
      extract_api_error_message payload = none →
      records_from_payload payload = none →
      get_multiple_stock_quotes fetch api_key symbols =
        fail_response .upstream
          (S "Unexpected response format for quotes " ++ batch_symbols_str symbols ++ S ".")
          (some status) (some payload)) ∧
    (∀ (fetch : Str → HttpOutcome) (api_key : Str) (status : Nat) (payload : Json),
      api_key.isEmpty = false →
      fetch (build_url (S "forex-list") api_key []) = .good_json status payload →
      status < 400 →
      extract_api_error_message payload = none →
      records_from_payload payload = none →
      get_forex_pairs_list fetch api_key =
        fail_response .upstream (S "Unexpected response format for Forex pairs list.")
          (some status) (some payload)) ∧
    (∀ (fetch : Str → HttpOutcome) (api_key pair : Str) (status : Nat) (payload : Json),
      api_key.isEmpty = false →
      (upper (strip pair)).isEmpty = false →
      fetch (build_url (S "quote") api_key [(S "symbol", some (upper (strip pair)))]) =
        .good_json status payload →
      status < 400 →
      extract_api_error_message payload = none →
      records_from_payload payload = none →
      get_forex_quote fetch api_key pair =
        fail_response .upstream
          (S "Unexpected response format for Forex quote " ++ upper (strip pair) ++ S ".")
          (some status) (some payload)) := by
  refine ⟨?_, ?_, ?_, ?_, ?_, ?_, ?_⟩
  · intro fetch api_key status payload hkey hfetch hstatus hnoerr hrec
    simp [get_market_winners, hkey, hfetch,
      request_json_ok_of status payload hstatus hnoerr,
      records_from_payload_opt, hrec, ok_response]
  · intro fetch api_key status payload hkey hfetch hstatus hnoerr hrec
    simp [get_market_losers, hkey, hfetch,
      request_json_ok_of status payload hstatus hnoerr,
      records_from_payload_opt, hrec, ok_response]
  · intro fetch api_key symbol status payload hkey hsym hfetch hstatus hnoerr hrec
    constructor
    · intro hne
      cases payload with
      | obj entries => exact absurd rfl (hne entries)
      | null =>
          simp [get_stock_quote, hkey, hsym, hfetch,
            request_json_ok_of status _ hstatus hnoerr,
            records_from_payload_opt, hrec, ok_response]
      | bool b =>
          simp [get_stock_quote, hkey, hsym, hfetch,
            request_json_ok_of status _ hstatus hnoerr,
            records_from_payload_opt, hrec, ok_response]
      | int i =>
          simp [get_stock_quote, hkey, hsym, hfetch,
            request_json_ok_of status _ hstatus hnoerr,
            records_from_payload_opt, hrec, ok_response]
      | float q =>
          simp [get_stock_quote, hkey, hsym, hfetch,
            request_json_ok_of status _ hstatus hnoerr,
            records_from_payload_opt, hrec, ok_response]
      | str s =>
          simp [get_stock_quote, hkey, hsym, hfetch,
            request_json_ok_of status _ hstatus hnoerr,
            records_from_payload_opt, hrec, ok_response]
      | arr items =>
          simp [get_stock_quote, hkey, hsym, hfetch,
            request_json_ok_of status _ hstatus hnoerr,
            records_from_payload_opt, hrec, ok_response]
    · intro entries hobj
      subst hobj
      simp [get_stock_quote, hkey, hsym, hfetch,
        request_json_ok_of status _ hstatus hnoerr,
        records_from_payload_opt, hrec, ok_response]
  · intro fetch api_key symbol period indicator_type timeframe status payload
      hvalid hfetch hstatus hnoerr hrec
    simp only [get_technical_indicator_result, indicator_primary_url] at *
    rw [if_neg hvalid]
    rw [hfetch, request_json_ok_of status payload hstatus hnoerr]
    rw [if_neg (by rintro ⟨h1, -⟩; simp [ok_response] at h1)]
    rw [if_neg (by simp [ok_response])]
    simp [indicator_postprocess, records_from_payload_opt, hrec, ok_response]
  · intro fetch api_key symbols status payload hkey hsyms hfetch hstatus hnoerr hrec
    simp [get_multiple_stock_quotes, hkey, hsyms, hfetch,
      request_json_ok_of status payload hstatus hnoerr,
      records_from_payload_opt, hrec, ok_response]
  · intro fetch api_key status payload hkey hfetch hstatus hnoerr hrec
    have hjs : json_str_items (some payload) = none := by
      cases payload with
      | arr items => simp [records_from_payload] at hrec
      | null => rfl
      | bool b => rfl
      | int i => rfl
      | float q => rfl
      | str s => rfl
      | obj entries => rfl
    simp [get_forex_pairs_list, hkey, hfetch,
      request_json_ok_of status payload hstatus hnoerr,
      hjs, records_from_payload_opt, hrec, ok_response]
  · intro fetch api_key pair status payload hkey hpair hfetch hstatus hnoerr hrec
    simp [get_forex_quote, hkey, hpair, hfetch,
      request_json_ok_of status payload hstatus hnoerr,
      records_from_payload_opt, hrec, ok_response]

/-- Witness for C3's amended theorem: a string payload (no extraction
possible, not a mapping) makes the winners, indicator, batch-quote,
forex-list and forex-quote entry points and the quote entry point fail
`upstream`, while a bare mapping payload makes the quote entry point
succeed. -/
theorem extraction_failure_upstream_witness :
    get_market_winners (fun _ => .good_json 200 (.str (S "oops"))) (S "key") =
      fail_response .upstream (S "Unexpected response format for market gainers.")
        (some 200) (some (.str (S "oops"))) ∧
    get_stock_quote (fun _ => .good_json 200 (.str (S "oops"))) (S "AAPL") (S "key") =
      fail_response .upstream (S "Unexpected response format for quote " ++ S "AAPL" ++ S ".")
        (some 200) (some (.str (S "oops"))) ∧
    get_stock_quote (fun _ => .good_json 200 (.obj [(S "price", .int 1)]))
        (S "AAPL") (S "key") =
      ok_response (.obj (normalize_quote_record [(S "price", .int 1)])) (some 200) ∧
    get_technical_indicator_result (fun _ => .good_json 200 (.str (S "oops")))
        (S "key") (S "AAPL") 14 (S "rsi") (S "daily") =
      (fail_response .upstream
        (S "Unexpected response format for indicator " ++ S "rsi" ++ S ".")
        (some 200) (some (.str (S "oops"))),
       [indicator_primary_url (S "key") (S "AAPL") 14 (S "rsi") (S "daily")]) ∧
    get_multiple_stock_quotes (fun _ => .good_json 200 (.str (S "oops")))
        (S "key") [S "AAPL"] =
      fail_response .upstream
        (S "Unexpected response format for quotes " ++ S "AAPL" ++ S ".")
        (some 200) (some (.str (S "oops"))) ∧
    get_forex_pairs_list (fun _ => .good_json 200 (.obj [(S "weird", .int 1)])) (S "key") =
      fail_response .upstream (S "Unexpected response format for Forex pairs list.")
        (some 200) (some (.obj [(S "weird", .int 1)])) ∧
    get_forex_quote (fun _ => .good_json 200 (.str (S "oops"))) (S "key") (S "EURUSD") =
      fail_response .upstream
        (S "Unexpected response format for Forex quote " ++ S "EURUSD" ++ S ".")
        (some 200) (some (.str (S "oops"))) := by
  refine ⟨?_, ?_, ?_, ?_, ?_, ?_, ?_⟩
  · exact extraction_failure_upstream.1 _ (S "key") 200 (.str (S "oops"))
      (by decide) rfl (by decide) (by decide) rfl
  · exact (extraction_failure_upstream.2.2.1 _ (S "key") (S "AAPL") 200 (.str (S "oops"))
      (by decide) (by decide) rfl (by decide) (by decide) rfl).1
      (fun entries h => by cases h)
  · exact (extraction_failure_upstream.2.2.1 _ (S "key") (S "AAPL") 200
      (.obj [(S "price", .int 1)])
      (by decide) (by decide) rfl (by decide) (by decide) rfl).2
      [(S "price", .int 1)] rfl
  · rw [extraction_failure_upstream.2.2.2.1 _ (S "key") (S "AAPL") 14 (S "rsi") (S "daily")
      200 (.str (S "oops")) (by decide) rfl (by decide) (by decide) rfl]
    rfl
  · rw [extraction_failure_upstream.2.2.2.2.1 _ (S "key") [S "AAPL"] 200 (.str (S "oops"))
      (by decide) (by decide) rfl (by decide) (by decide) rfl]
    rfl
  · exact extraction_failure_upstream.2.2.2.2.2.1 _ (S "key") 200
      (.obj [(S "weird", .int 1)]) (by decide) rfl (by decide) (by decide) rfl
  · exact extraction_failure_upstream.2.2.2.2.2.2 _ (S "key") (S "EURUSD") 200
      (.str (S "oops")) (by decide) (by decide) rfl (by decide) (by decide) rfl

/-- C5: on a successfully decoded empty-list payload the movers entry
points return a success carrying an empty record list (never an `empty`
failure), while the single-quote entry point returns an `empty`-category
failure when the extracted record set is empty. -/
theorem movers_empty_vs_quote_empty :
    (∀ (fetch : Str → HttpOutcome) (api_key : Str) (status : Nat),
      api_key.isEmpty = false →
      fetch (build_url (S "biggest-gainers") api_key []) = .good_json status (.arr []) →
      status < 400 →
      get_market_winners fetch api_key = ok_response (.arr []) (some status)) ∧
    (∀ (fetch : Str → HttpOutcome) (api_key : Str) (status : Nat),
      api_key.isEmpty = false →
      fetch (build_url (S "biggest-losers") api_key []) = .good_json status (.arr []) →
      status < 400 →
      get_market_losers fetch api_key = ok_response (.arr []) (some status)) ∧
    (∀ (fetch : Str → HttpOutcome) (api_key symbol : Str) (status : Nat) (payload : Json),
      api_key.isEmpty = false →
      (upper (strip symbol)).isEmpty = false →
      fetch (build_url (S "quote") api_key [(S "symbol", some (upper (strip symbol)))]) =
        .good_json status payload →
      status < 400 →
      extract_api_error_message payload = none →
      records_from_payload payload = some [] →
      get_stock_quote fetch symbol api_key =
        fail_response .empty
          (S "No quote data returned for " ++ upper (strip symbol) ++ S ".")
          (some status) none) := by
  refine ⟨?_, ?_, ?_⟩
  · intro fetch api_key status hkey hfetch hstatus
    simp [get_market_winners, hkey, hfetch,
      request_json_ok_of status (.arr []) hstatus rfl,
      records_from_payload_opt, records_from_payload, dict_items_of_list, ok_response]
  · intro fetch api_key status hkey hfetch hstatus
    simp [get_market_losers, hkey, hfetch,
      request_json_ok_of status (.arr []) hstatus rfl,
      records_from_payload_opt, records_from_payload, dict_items_of_list, ok_response]
  · intro fetch api_key symbol status payload hkey hsym hfetch hstatus hnoerr hrec
    simp [get_stock_quote, hkey, hsym, hfetch,
      request_json_ok_of status payload hstatus hnoerr,
      records_from_payload_opt, hrec, ok_response]

/-- Witness for C5: concrete empty-list payloads for all three entry
points. -/
theorem movers_empty_vs_quote_empty_witness :
    get_market_winners (fun _ => .good_json 200 (.arr [])) (S "key") =
      ok_response (.arr []) (some 200) ∧
    get_market_losers (fun _ => .good_json 200 (.arr [])) (S "key") =
      ok_response (.arr []) (some 200) ∧
    get_stock_quote (fun _ => .good_json 200 (.arr [])) (S "AAPL") (S "key") =
      fail_response .empty (S "No quote data returned for " ++ S "AAPL" ++ S ".")
        (some 200) none :=
  ⟨movers_empty_vs_quote_empty.1 _ (S "key") 200 (by decide) rfl (by decide),
   movers_empty_vs_quote_empty.2.1 _ (S "key") 200 (by decide) rfl (by decide),
   movers_empty_vs_quote_empty.2.2 _ (S "key") (S "AAPL") 200 (.arr [])
     (by decide) (by decide) rfl (by decide) (by decide) rfl⟩

/-- C1: for every decoded-JSON response, the requester fails iff the
status is ≥ 400 or the payload is a mapping holding a non-blank string
under one of the keys `Error Message`/`error`/`message`; on failure the
category is the status-derived one, refined by the message heuristic
only when the status-derived category is exactly `upstream`, with the
status preserved and the decoded payload attached. -/
theorem requester_json_classification (status : Nat) (payload : Json) :
    ((extract_api_error_message payload).isSome = true ↔
      ∃ key ∈ error_message_keys, ∃ entries, ∃ v,
        payload = .obj entries ∧ lookupField entries key = some (.str v) ∧ strip v ≠ []) ∧
    ((request_json (.good_json status payload)).ok = false ↔
      400 ≤ status ∨ (extract_api_error_message payload).isSome = true) ∧
    ((request_json (.good_json status payload)).ok = false →
      request_json (.good_json status payload) =
        fail_response
          (match extract_api_error_message payload with
            | some providerMessage =>
                if status_to_category (some status) = .upstream then
                  message_to_category providerMessage
                else status_to_category (some status)
            | none => status_to_category (some status))
          ((extract_api_error_message payload).getD
            (S "Request to market data provider failed."))
          (some status) (some payload)) := by
  have hprobe : ∀ (entries : List (Str × Json)) (key : Str),
      probe_error_key entries key = none ↔
        ¬ ∃ v, lookupField entries key = some (.str v) ∧ strip v ≠ [] := by
    intro entries key
    unfold probe_error_key
    cases hk : lookupField entries key with
    | none => simp
    | some j =>
        cases j with
        | str v => by_cases hv : strip v = [] <;> simp [hv]
        | null => simp
        | bool b => simp
        | int i => simp
        | float q => simp
        | arr items => simp
        | obj entries' => simp
  refine ⟨?_, ?_⟩
  · cases payload with
    | obj entries =>
        simp only [extract_api_error_message, Option.isSome_iff_ne_none, ne_eq,
          List.head?_eq_none_iff, List.filterMap_eq_nil_iff]
        constructor
        · intro h
          push_neg at h
          obtain ⟨key, hkey, hne⟩ := h
          have hex : ∃ v, lookupField entries key = some (.str v) ∧ strip v ≠ [] := by
            by_contra hcon
            exact hne ((hprobe entries key).mpr hcon)
          obtain ⟨v, hlook, hv⟩ := hex
          exact ⟨key, hkey, entries, v, rfl, hlook, hv⟩
        · rintro ⟨key, hkey, entries', v, heq, hlook, hv⟩
          injection heq with heq'
          subst heq'
          intro hall
          have h := hall key hkey
          rw [hprobe] at h
          exact h ⟨v, hlook, hv⟩
    | null => simp [extract_api_error_message]
    | bool b => simp [extract_api_error_message]
    | int i => simp [extract_api_error_message]
    | float q => simp [extract_api_error_message]
    | str s => simp [extract_api_error_message]
    | arr items => simp [extract_api_error_message]
  by_cases h : 400 ≤ status ∨ (extract_api_error_message payload).isSome = true
  · have hreq : request_json (.good_json status payload) =
        fail_response
          (match extract_api_error_message payload with
            | some providerMessage =>
                if status_to_category (some status) = .upstream then
                  message_to_category providerMessage
                else status_to_category (some status)
            | none => status_to_category (some status))
          ((extract_api_error_message payload).getD
            (S "Request to market data provider failed."))
          (some status) (some payload) := by
      simp only [request_json]
      rw [if_pos h]
    exact ⟨⟨fun _ => h, fun _ => by rw [hreq]; rfl⟩, fun _ => hreq⟩
  · have hreq : request_json (.good_json status payload) = ok_response payload (some status) := by
      simp only [request_json]
      rw [if_neg h]
    constructor
    · constructor
      · intro hfalse
        rw [hreq] at hfalse
        simp [ok_response] at hfalse
      · intro hor
        exact absurd hor h
    · intro hfalse
      rw [hreq] at hfalse
      simp [ok_response] at hfalse

/-- Witness for C1: a 200 status with an `Error Message` body classifies
as an `auth` failure with status 200 preserved; a 404 with a
`subscription` message stays `not_found`. -/
theorem requester_json_classification_witness :
    (request_json (.good_json 200 (.obj [(S "Error Message", .str (S "Invalid API KEY"))]))).ok
      = false ∧
    request_json (.good_json 200 (.obj [(S "Error Message", .str (S "Invalid API KEY"))])) =
      fail_response .auth (S "Invalid API KEY") (some 200)
        (some (.obj [(S "Error Message", .str (S "Invalid API KEY"))])) ∧
    request_json (.good_json 404 (.obj [(S "message", .str (S "Subscription required"))])) =
      fail_response .not_found (S "Subscription required") (some 404)
        (some (.obj [(S "message", .str (S "Subscription required"))])) := by
  have h1 := (requester_json_classification 200
    (.obj [(S "Error Message", .str (S "Invalid API KEY"))])).2.2
  have h2 := (requester_json_classification 404
    (.obj [(S "message", .str (S "Subscription required"))])).2.2
  refine ⟨by decide, ?_, ?_⟩
  · rw [h1 (by decide)]; rfl
  · rw [h2 (by decide)]; rfl

/-- C9: the error formatter picks the fixed per-category message
(`upstream` degrading to the caller's fallback), except that an `auth`
failure whose message contains "legacy endpoint" (case-insensitively)
gets the fixed stable-endpoint-migration explanation; it then appends
the parenthesised hints (status code when present; whitespace-collapsed
140-character excerpt of the raw message when non-empty, joined by
"; "). -/
theorem format_api_error_spec (r : FMPResponse) (fallback : Str) :
    (r.ok = true → format_api_error r fallback = fallback) ∧
    (r.ok = false → r.category = some .auth →
      containsSub (lower r.message) LEGACY_ENDPOINT_MARKER = true →
      format_api_error r fallback =
        legacy_endpoint_message ++
          (if !(error_hints r).isEmpty then
            S " (" ++ ((error_hints r).intersperse (S "; ")).flatten ++ S ")"
          else [])) ∧
    (r.ok = false →
      ¬(r.category = some ErrorCategory.auth ∧
          containsSub (lower r.message) LEGACY_ENDPOINT_MARKER = true) →
      format_api_error r fallback =
        category_message r.category fallback ++
          (if !(error_hints r).isEmpty then
            S " (" ++ ((error_hints r).intersperse (S "; ")).flatten ++ S ")"
          else [])) ∧
    format_api_error
        { ok := false, data := none, category := some .plan, status_code := some 402,
          message := S "Subscription required" } (S "fallback") =
      S "Market data endpoint requires a higher FMP subscription tier. (status 402; Subscription required)" ∧
    containsSub
      (format_api_error
        { ok := false, data := none, category := some .plan, status_code := some 402,
          message := S "Subscription required" } (S "fallback"))
      (S "subscription tier") = true ∧
    containsSub
      (format_api_error
        { ok := false, data := none, category := some .plan, status_code := some 402,
          message := S "Subscription required" } (S "fallback"))
      (S "status 402") = true := by
  refine ⟨?_, ?_, ?_, by decide, by decide, by decide⟩
  · intro hok
    simp [format_api_error, hok]
  · intro hok hcat hleg
    cases hh : (error_hints r).isEmpty <;>
      simp [format_api_error, hok, hcat, hleg, hh, List.append_assoc]
  · intro hok hn
    cases hh : (error_hints r).isEmpty <;>
      simp [format_api_error, hok, hh, List.append_assoc, if_neg hn]

set_option maxRecDepth 8192 in
/-- Witness for C9: a legacy-endpoint `auth` failure gets the fixed
migration message, with status and excerpt hints appended. -/
theorem format_api_error_spec_witness :
    format_api_error
        { ok := false, data := none, category := some .auth, status_code := some 403,
          message := S "Legacy Endpoint : available for legacy users" } (S "fb") =
      S "Market data API key is unauthorized for legacy endpoints. Use stable endpoint routes and verify deployed version. (status 403; Legacy Endpoint : available for legacy users)" := by
  have h := (format_api_error_spec
    { ok := false, data := none, category := some .auth, status_code := some 403,
      message := S "Legacy Endpoint : available for legacy users" } (S "fb")).2.1
    rfl rfl (by decide)
  rw [h]
  decide

/-- C2: when the primary indicator request fails with category
`not_found` or `upstream`, exactly one fallback request is issued, under
the alternate `period` parameter name, and a successful fallback
response replaces the primary failure (the pipeline continues on it);
a primary failure of any other category issues no fallback request and
is returned as-is. -/
theorem indicator_fallback_protocol (fetch : Str → HttpOutcome)
    (api_key symbol : Str) (period : Int) (indicator_type timeframe : Str)
    (hvalid : ¬(api_key.isEmpty = true ∨ symbol.isEmpty = true ∨ period ≤ 0 ∨
      indicator_type.isEmpty = true)) :
    ((request_json (fetch (indicator_primary_url api_key symbol period indicator_type timeframe))).ok = false →
     ((request_json (fetch (indicator_primary_url api_key symbol period indicator_type timeframe))).category = some .not_found ∨
      (request_json (fetch (indicator_primary_url api_key symbol period indicator_type timeframe))).category = some .upstream) →
      (get_technical_indicator_result fetch api_key symbol period indicator_type timeframe).2 =
        [indicator_primary_url api_key symbol period indicator_type timeframe,
         indicator_fallback_url api_key symbol period indicator_type timeframe] ∧
      ((request_json (fetch (indicator_fallback_url api_key symbol period indicator_type timeframe))).ok = true →
        get_technical_indicator_result fetch api_key symbol period indicator_type timeframe =
          (indicator_postprocess
              (request_json (fetch (indicator_fallback_url api_key symbol period indicator_type timeframe)))
              (lower (strip indicator_type)) period,
           [indicator_primary_url api_key symbol period indicator_type timeframe,
            indicator_fallback_url api_key symbol period indicator_type timeframe]))) ∧
    ((request_json (fetch (indicator_primary_url api_key symbol period indicator_type timeframe))).ok = false →
      (request_json (fetch (indicator_primary_url api_key symbol period indicator_type timeframe))).category ≠ some .not_found →
      (request_json (fetch (indicator_primary_url api_key symbol period indicator_type timeframe))).category ≠ some .upstream →
      get_technical_indicator_result fetch api_key symbol period indicator_type timeframe =
        (request_json (fetch (indicator_primary_url api_key symbol period indicator_type timeframe)),
         [indicator_primary_url api_key symbol period indicator_type timeframe])) := by
  constructor
  · intro h1 hcat
    simp only [get_technical_indicator_result, indicator_primary_url,
      indicator_fallback_url] at *
    rw [if_neg hvalid]
    rw [if_pos ⟨h1, hcat⟩]
    constructor
    · split <;> (try split) <;> rfl
    · intro h2
      rw [if_pos h2, if_neg (by simp [h2])]
  · intro h1 hn1 hn2
    simp only [get_technical_indicator_result, indicator_primary_url,
      indicator_fallback_url] at *
    rw [if_neg hvalid]
    rw [if_neg (by
      rintro ⟨-, h | h⟩
      · exact hn1 h
      · exact hn2 h)]
    rw [if_pos h1]

/-- Witness for C2: a 404 primary and a successful fallback; the result
is the processed fallback payload and both URLs were requested. -/
theorem indicator_fallback_protocol_witness :
    (get_technical_indicator_result
      (fun url =>
        if url = indicator_fallback_url (S "key") (S "AAPL") 14 (S "rsi") (S "daily") then
          .good_json 200 (.arr [.obj [(S "date", .str (S "2025-01-01")), (S "rsi", .int 51)]])
        else .good_json 404 (.obj [(S "message", .str (S "Not Found"))]))
      (S "key") (S "AAPL") 14 (S "rsi") (S "daily")).2 =
      [indicator_primary_url (S "key") (S "AAPL") 14 (S "rsi") (S "daily"),
       indicator_fallback_url (S "key") (S "AAPL") 14 (S "rsi") (S "daily")] ∧
    (get_technical_indicator_result
      (fun url =>
        if url = indicator_fallback_url (S "key") (S "AAPL") 14 (S "rsi") (S "daily") then
          .good_json 200 (.arr [.obj [(S "date", .str (S "2025-01-01")), (S "rsi", .int 51)]])
        else .good_json 404 (.obj [(S "message", .str (S "Not Found"))]))
      (S "key") (S "AAPL") 14 (S "rsi") (S "daily")).1.ok = true := by
  have h := (indicator_fallback_protocol
    (fun url =>
      if url = indicator_fallback_url (S "key") (S "AAPL") 14 (S "rsi") (S "daily") then
        .good_json 200 (.arr [.obj [(S "date", .str (S "2025-01-01")), (S "rsi", .int 51)]])
      else .good_json 404 (.obj [(S "message", .str (S "Not Found"))]))
    (S "key") (S "AAPL") 14 (S "rsi") (S "daily") (by decide)).1
    (by decide) (by decide)
  refine ⟨h.1, ?_⟩
  rw [h.2 (by decide)]
  decide

/-- C10: when the primary indicator request fails with category
`not_found` or `upstream` and the fallback request also fails, the
caller receives the primary failure (its category, status and message),
not the fallback's. -/
theorem indicator_fallback_failure_returns_primary (fetch : Str → HttpOutcome)
    (api_key symbol : Str) (period : Int) (indicator_type timeframe : Str)
    (hvalid : ¬(api_key.isEmpty = true ∨ symbol.isEmpty = true ∨ period ≤ 0 ∨
      indicator_type.isEmpty = true))
    (h1 : (request_json (fetch (indicator_primary_url api_key symbol period indicator_type timeframe))).ok = false)
    (hcat : (request_json (fetch (indicator_primary_url api_key symbol period indicator_type timeframe))).category = some .not_found ∨
      (request_json (fetch (indicator_primary_url api_key symbol period indicator_type timeframe))).category = some .upstream)
    (h2 : (request_json (fetch (indicator_fallback_url api_key symbol period indicator_type timeframe))).ok = false) :
    get_technical_indicator_result fetch api_key symbol period indicator_type timeframe =
      (request_json (fetch (indicator_primary_url api_key symbol period indicator_type timeframe)),
       [indicator_primary_url api_key symbol period indicator_type timeframe,
        indicator_fallback_url api_key symbol period indicator_type timeframe]) := by
  simp only [get_technical_indicator_result, indicator_primary_url,
    indicator_fallback_url] at *
  rw [if_neg hvalid]
  rw [if_pos ⟨h1, hcat⟩]
  simp only [h2]
  rw [if_neg Bool.false_ne_true, if_pos h1]

/-- Witness for C10: primary 404, fallback 500; the returned failure is
the primary `not_found` with status 404 and the primary message. -/
theorem indicator_fallback_failure_returns_primary_witness :
    (get_technical_indicator_result
      (fun url =>
        if url = indicator_fallback_url (S "key") (S "AAPL") 14 (S "rsi") (S "daily") then
          .good_json 500 (.obj [(S "error", .str (S "server blew up"))])
        else .good_json 404 (.obj [(S "message", .str (S "Not Found"))]))
      (S "key") (S "AAPL") 14 (S "rsi") (S "daily")).1 =
      fail_response .not_found (S "Not Found") (some 404)
        (some (.obj [(S "message", .str (S "Not Found"))])) := by
  rw [indicator_fallback_failure_returns_primary
    (fun url =>
      if url = indicator_fallback_url (S "key") (S "AAPL") 14 (S "rsi") (S "daily") then
        .good_json 500 (.obj [(S "error", .str (S "server blew up"))])
      else .good_json 404 (.obj [(S "message", .str (S "Not Found"))]))
    (S "key") (S "AAPL") 14 (S "rsi") (S "daily") (by decide) (by decide)
    (by decide) (by decide)]
  rfl

/-! ## C6 support: spec-side decomposition of the historical pipeline -/

/-- The renamed, date-indexed rows of the historical pipeline. -/
def historical_prepared (records : List (List (Str × Json))) :
    List (Option PyDate × List (Str × Json)) :=
  (apply_renames (dataframe_columns records) records).2.map
    (fun r => (to_datetime_cell (lookupField r (S "date")), r))

/-- The canonical columns that never appeared in the (renamed) source. -/
def historical_missing (records : List (List (Str × Json))) : List Str :=
  canonical_columns.filter
    (fun c => c ∉ (apply_renames (dataframe_columns records) records).1.erase (S "date"))

/-- Zero-fill one row for each of the given missing columns. -/
def zero_fill_row (missing : List Str) (row : Option PyDate × List (Str × Json)) :
    Option PyDate × List (Str × Json) :=
  (row.1, missing.foldl (fun cells col => setField cells col (.int 0)) row.2)

instance : IsTotal (Option PyDate × List (Str × Json)) rowLe := by
  constructor
  intro a b
  unfold rowLe date_le
  rcases a.1 with _ | x <;> rcases b.1 with _ | y <;> simp
  exact Nat.le_total (dateKey x) (dateKey y)

instance : IsTrans (Option PyDate × List (Str × Json)) rowLe := by
  constructor
  intro a b c
  unfold rowLe date_le
  rcases a.1 with _ | x <;> rcases b.1 with _ | y <;> rcases c.1 with _ | z <;> simp
  exact Nat.le_trans

theorem lookupField_setField_self (cells : List (Str × Json)) (k : Str) (v : Json) :
    lookupField (setField cells k v) k = some v := by
  induction cells with
  | nil => simp [setField, lookupField]
  | cons hd tl ih =>
      obtain ⟨k', w⟩ := hd
      by_cases h : k' = k
      · simp [setField, lookupField, h]
      · simp [setField, lookupField, h, ih]

theorem lookupField_setField_ne (cells : List (Str × Json)) (k' k : Str) (v : Json)
    (h : k' ≠ k) :
    lookupField (setField cells k' v) k = lookupField cells k := by
  induction cells with
  | nil => simp [setField, lookupField, h]
  | cons hd tl ih =>
      obtain ⟨k0, w⟩ := hd
      by_cases h0 : k0 = k'
      · subst h0
        simp [setField, lookupField, h]
      · simp [setField, lookupField, h0, ih]

theorem lookupField_foldl_setField_not_mem (todo : List Str)
    (cells : List (Str × Json)) (col : Str) (h : col ∉ todo) :
    lookupField (todo.foldl (fun cs c => setField cs c (.int 0)) cells) col =
      lookupField cells col := by
  induction todo generalizing cells with
  | nil => rfl
  | cons hd tl ih =>
      rw [List.foldl_cons, ih _ (fun hm => h (List.mem_cons_of_mem hd hm)),
        lookupField_setField_ne _ hd col _ (fun he => h (he ▸ List.mem_cons_self hd tl))]

theorem lookupField_foldl_setField_mem (todo : List Str)
    (cells : List (Str × Json)) (col : Str) (hmem : col ∈ todo) (hnd : todo.Nodup) :
    lookupField (todo.foldl (fun cs c => setField cs c (.int 0)) cells) col =
      some (.int 0) := by
  induction todo generalizing cells with
  | nil => cases hmem
  | cons hd tl ih =>
      rw [List.foldl_cons]
      rcases List.mem_cons.mp hmem with he | hm
      · subst he
        rw [lookupField_foldl_setField_not_mem tl _ col (List.Nodup.not_mem hnd),
          lookupField_setField_self]
      · exact ih _ hm (List.Nodup.of_cons hnd)

theorem zero_fill_fold (todo : List Str) (accCols : List Str)
    (rows : List (Option PyDate × List (Str × Json))) (hnd : todo.Nodup) :
    todo.foldl (fun acc col =>
        if col ∈ acc.1 then acc
        else (acc.1 ++ [col], acc.2.map (fun row => (row.1, setField row.2 col (.int 0)))))
      (accCols, rows) =
    (accCols ++ todo.filter (fun c => c ∉ accCols),
     rows.map (zero_fill_row (todo.filter (fun c => c ∉ accCols)))) := by
  induction todo generalizing accCols rows with
  | nil =>
      simp only [List.foldl_nil, List.filter_nil, List.append_nil]
      conv_lhs => rw [← List.map_id rows]
      apply congrArg
      apply List.map_congr_left
      intro a _
      simp [zero_fill_row]
  | cons hd tl ih =>
      have hhd : hd ∉ tl := List.Nodup.not_mem hnd
      have htl : tl.Nodup := List.Nodup.of_cons hnd
      rw [List.foldl_cons]
      by_cases h : hd ∈ accCols
      · rw [if_pos h, ih accCols rows htl]
        simp [List.filter_cons, h]
      · rw [if_neg h, ih (accCols ++ [hd]) _ htl]
        have hfilter : tl.filter (fun c => c ∉ accCols ++ [hd]) =
            tl.filter (fun c => c ∉ accCols) := by
          apply List.filter_congr
          intro x hx
          have hxne : x ≠ hd := fun he => hhd (he ▸ hx)
          simp [List.mem_append, hxne]
        rw [hfilter]
        simp [List.filter_cons, h, List.map_map, zero_fill_row, List.append_assoc,
          Function.comp]

theorem renames_fold_noop (m : List (Str × Str)) (st : List Str × List (List (Str × Json)))
    (h : ∀ p ∈ m, p.2 ∈ st.1 ∨ p.1 ∉ st.1) :
    m.foldl (fun st kv =>
      if kv.1 ∈ st.1 ∧ kv.2 ∉ st.1 then
        (st.1 ++ [kv.2], st.2.map (fun r => setField r kv.2 ((lookupField r kv.1).getD .null)))
      else st) st = st := by
  induction m with
  | nil => rfl
  | cons hd tl ih =>
      rw [List.foldl_cons, if_neg ?hc]
      case hc =>
        rintro ⟨h1, h2⟩
        rcases h hd (List.mem_cons_self hd tl) with ht | hs
        · exact h2 ht
        · exact hs h1
      exact ih (fun p hp => h p (List.mem_cons_of_mem hd hp))

theorem apply_renames_noop (cols : List Str) (rows : List (List (Str × Json)))
    (h : ∀ p ∈ rename_map, p.2 ∈ cols ∨ p.1 ∉ cols) :
    apply_renames cols rows = (cols, rows) := by
  unfold apply_renames
  exact renames_fold_noop rename_map (cols, rows) h

set_option maxHeartbeats 1600000 in
/-- C6: the historical series builder: an empty input yields an empty
non-error series; renames apply only when the canonical name is absent
(the rename loop is a no-op when every canonical target is present or
source absent); a missing date column yields "no series" with exactly
one message to the error sink; otherwise the result's columns are the
five canonical columns followed by the remaining provider-specific
columns, its rows are sorted ascending by date, all lie in the inclusive
window, they are exactly the in-window renamed rows (as a permutation,
zero-filled), and every canonical column absent from the (renamed)
source reads 0 in every row. -/
theorem historical_series_spec (records : List (List (Str × Json)))
    (start_date end_date : PyDate) (symbol : Str) :
    (normalize_historical_dataframe [] start_date end_date symbol =
      (some ⟨[], []⟩, [])) ∧
    (∀ cols rows, (∀ p ∈ rename_map, p.2 ∈ cols ∨ p.1 ∉ cols) →
      apply_renames cols rows = (cols, rows)) ∧
    (records.isEmpty = false →
      S "date" ∉ (apply_renames (dataframe_columns records) records).1 →
      normalize_historical_dataframe records start_date end_date symbol =
        (none, [S "historical response missing date column symbol=" ++ symbol])) ∧
    (records.isEmpty = false →
      S "date" ∈ (apply_renames (dataframe_columns records) records).1 →
      ∃ df, normalize_historical_dataframe records start_date end_date symbol =
          (some df, []) ∧
        df.cols = canonical_columns ++
          ((apply_renames (dataframe_columns records) records).1.erase (S "date")).filter
            (fun c => c ∉ canonical_columns) ∧
        df.rows.Pairwise rowLe ∧
        (∀ row ∈ df.rows, in_window start_date end_date row.1 = true) ∧
        df.rows.Perm
          (((historical_prepared records).filter
              (fun row => in_window start_date end_date row.1)).map
            (zero_fill_row (historical_missing records))) ∧
        (∀ col ∈ canonical_columns,
          col ∉ (apply_renames (dataframe_columns records) records).1.erase (S "date") →
          ∀ row ∈ df.rows, lookupField row.2 col = some (.int 0))) := by
  refine ⟨rfl, fun cols rows h => apply_renames_noop cols rows h, ?_, ?_⟩
  · intro hne hdate
    simp only [normalize_historical_dataframe]
    rw [if_neg (by simp [hne]), if_pos hdate]
  · intro hne hdate
    simp only [normalize_historical_dataframe]
    rw [if_neg (by simp [hne]), if_neg (fun hc => hc hdate)]
    rw [zero_fill_fold canonical_columns _ _ (by decide)]
    refine ⟨_, rfl, ?_, ?_, ?_, ?_, ?_⟩
    · rw [List.filter_append]
      have hmiss : (canonical_columns.filter (fun c =>
          c ∉ (apply_renames (dataframe_columns records) records).1.erase (S "date"))).filter
            (fun c => c ∉ canonical_columns) = [] := by
        rw [List.filter_eq_nil_iff]
        intro x hx
        have hxc : x ∈ canonical_columns := (List.mem_filter.mp hx).1
        simp [hxc]
      rw [hmiss, List.append_nil]
    · rw [List.pairwise_map]
      have hsorted : (List.insertionSort rowLe
          ((apply_renames (dataframe_columns records) records).2.map
            (fun r => (to_datetime_cell (lookupField r (S "date")), r)))).Pairwise rowLe :=
        List.sorted_insertionSort rowLe _
      exact (hsorted.filter _).imp (fun hab => hab)
    · intro row hrow
      obtain ⟨r', hr', rfl⟩ := List.mem_map.mp hrow
      exact (List.mem_filter.mp hr').2
    · simp only [historical_prepared, historical_missing]
      exact List.Perm.map _ (List.Perm.filter _ (List.perm_insertionSort rowLe _))
    · intro col hcol hnotin row hrow
      obtain ⟨r', hr', rfl⟩ := List.mem_map.mp hrow
      have hmem : col ∈ canonical_columns.filter (fun c =>
          c ∉ (apply_renames (dataframe_columns records) records).1.erase (S "date")) :=
        List.mem_filter.mpr ⟨hcol, by simpa using hnotin⟩
      have hnd : (canonical_columns.filter (fun c =>
          c ∉ (apply_renames (dataframe_columns records) records).1.erase (S "date"))).Nodup :=
        List.Nodup.filter _ (by decide)
      simp only [zero_fill_row]
      exact lookupField_foldl_setField_mem _ _ col hmem hnd

/-- A five-day record set without a `volume` column, unsorted. -/
def demo_records : List (List (Str × Json)) :=
  [[(S "date", .str (S "2024-01-05")), (S "open", .int 5), (S "high", .int 5),
    (S "low", .int 5), (S "close", .int 5)],
   [(S "date", .str (S "2024-01-01")), (S "open", .int 1), (S "high", .int 1),
    (S "low", .int 1), (S "close", .int 1)],
   [(S "date", .str (S "2024-01-03")), (S "open", .int 3), (S "high", .int 3),
    (S "low", .int 3), (S "close", .int 3)],
   [(S "date", .str (S "2024-01-02")), (S "open", .int 2), (S "high", .int 2),
    (S "low", .int 2), (S "close", .int 2)],
   [(S "date", .str (S "2024-01-04")), (S "open", .int 4), (S "high", .int 4),
    (S "low", .int 4), (S "close", .int 4)]]

/-- Witness for C6: the five-day record set filtered to the window
`[2024-01-02, 2024-01-03]` yields a non-error frame whose rows are
sorted, in-window, and exactly the two in-window days — with the absent
`volume` column zero-filled (checked by evaluation). -/
theorem historical_series_spec_witness :
    (∃ df, normalize_historical_dataframe demo_records ⟨2024, 1, 2⟩ ⟨2024, 1, 3⟩ (S "AAPL") =
        (some df, []) ∧
      df.rows.Pairwise rowLe ∧
      (∀ row ∈ df.rows, in_window ⟨2024, 1, 2⟩ ⟨2024, 1, 3⟩ row.1 = true)) ∧
    ((normalize_historical_dataframe demo_records ⟨2024, 1, 2⟩ ⟨2024, 1, 3⟩ (S "AAPL")).1.map
      (fun df => (df.cols, df.rows.map (fun row =>
        (row.1, lookupField row.2 (S "open"), lookupField row.2 (S "volume")))))) =
      some ([S "open", S "high", S "low", S "close", S "volume"],
        [(some ⟨2024, 1, 2⟩, some (.int 2), some (.int 0)),
         (some ⟨2024, 1, 3⟩, some (.int 3), some (.int 0))]) := by
  constructor
  · obtain ⟨df, heq, hcols, hsort, hwin, hperm, hfill⟩ :=
      (historical_series_spec demo_records ⟨2024, 1, 2⟩ ⟨2024, 1, 3⟩ (S "AAPL")).2.2.2
        (by decide) (by decide)
    exact ⟨df, heq, hsort, hwin⟩
  · rfl

/-! ## C7 support: parsing back what `urlencode` produced -/

theorem utf8Bytes_lt_256 (c : Char) : ∀ b ∈ utf8Bytes c, b < 256 := by
  have hv : c.toNat < 1114112 := by
    have h : Nat.isValidChar c.toNat := c.valid
    rcases h with h | ⟨h1, h2⟩ <;> omega
  intro b hb
  unfold utf8Bytes at hb
  by_cases h1 : c.toNat < 128
  · simp [h1] at hb
    omega
  · by_cases h2 : c.toNat < 2048
    · simp [h1, h2] at hb
      rcases hb with rfl | rfl <;> omega
    · by_cases h3 : c.toNat < 65536
      · simp [h1, h2, h3] at hb
        rcases hb with rfl | rfl | rfl <;> omega
      · simp [h1, h2, h3] at hb
        rcases hb with rfl | rfl | rfl | rfl <;> omega

theorem hexDigit_safe (n : Nat) (hn : n < 16) :
    hexDigit n ≠ '&' ∧ hexDigit n ≠ '=' := by
  interval_cases n <;> exact (by decide)

theorem pctByte_safe (b : Nat) (hb : b < 256) :
    ∀ x ∈ pctByte b, x ≠ '&' ∧ x ≠ '=' := by
  intro x hx
  unfold pctByte at hx
  simp at hx
  rcases hx with rfl | rfl | rfl
  · exact (by decide)
  · exact hexDigit_safe _ (by omega)
  · exact hexDigit_safe _ (by omega)

theorem quotePlusChar_safe (c : Char) :
    ∀ x ∈ quotePlusChar c, x ≠ '&' ∧ x ≠ '=' := by
  intro x hx
  unfold quotePlusChar at hx
  split at hx
  · next hsafe =>
      simp at hx
      subst hx
      constructor <;> rintro rfl <;> revert hsafe <;> decide
  · split at hx
    · simp at hx; subst hx; exact (by decide)
    · simp at hx
      obtain ⟨b, hb, hxb⟩ := hx
      exact pctByte_safe b (utf8Bytes_lt_256 c b hb) x hxb

theorem quotePlus_safe (s : Str) : ∀ x ∈ quotePlus s, x ≠ '&' ∧ x ≠ '=' := by
  intro x hx
  unfold quotePlus at hx
  simp at hx
  obtain ⟨c, _, hc⟩ := hx
  exact quotePlusChar_safe c x hc

theorem splitSep_no_sep (sep : Char) (s : Str) (h : sep ∉ s) :
    splitSep sep s = [s] := by
  induction s with
  | nil => rfl
  | cons c rest ih =>
      have hc : ¬(c = sep) := fun he => h (he ▸ List.mem_cons_self c rest)
      rw [splitSep, if_neg hc, ih (fun hm => h (List.mem_cons_of_mem c hm))]
      rfl

theorem splitSep_append_cons (sep : Char) (a t : Str) (h : sep ∉ a) :
    splitSep sep (a ++ sep :: t) = a :: splitSep sep t := by
  induction a with
  | nil => simp [splitSep]
  | cons c rest ih =>
      have hc : ¬(c = sep) := fun he => h (he ▸ List.mem_cons_self c rest)
      rw [List.cons_append, splitSep, if_neg hc,
        ih (fun hm => h (List.mem_cons_of_mem c hm))]
      rfl

theorem splitSep_intersperse (sep : Char) (parts : List Str) (hne : parts ≠ [])
    (h : ∀ p ∈ parts, sep ∉ p) :
    splitSep sep ((parts.intersperse [sep]).flatten) = parts := by
  induction parts with
  | nil => cases hne rfl
  | cons a rest ih =>
      cases rest with
      | nil =>
          have hflat : (([a] : List Str).intersperse [sep]).flatten = a := by
            simp
          rw [hflat]
          exact splitSep_no_sep sep a (h a (List.mem_cons_self a []))
      | cons b rest' =>
          have hflat : ((a :: b :: rest').intersperse [sep]).flatten =
              a ++ sep :: ((b :: rest').intersperse [sep]).flatten := by
            simp [List.intersperse]
          rw [hflat,
            splitSep_append_cons sep a _ (h a (List.mem_cons_self a (b :: rest'))),
            ih (List.cons_ne_nil b rest')
              (fun p hp => h p (List.mem_cons_of_mem a hp))]

theorem takeWhile_middle (p : Char → Bool) (l1 : Str) (c : Char) (l2 : Str)
    (h1 : ∀ x ∈ l1, p x = true) (hc : p c = false) :
    (l1 ++ c :: l2).takeWhile p = l1 ∧ (l1 ++ c :: l2).dropWhile p = c :: l2 := by
  induction l1 with
  | nil => simp [List.takeWhile_cons, List.dropWhile_cons, hc]
  | cons x rest ih =>
      have hx : p x = true := h1 x (List.mem_cons_self x rest)
      have ihr := ih (fun y hy => h1 y (List.mem_cons_of_mem x hy))
      simp [List.takeWhile_cons, List.dropWhile_cons, hx, ihr.1, ihr.2]

theorem filterMap_all_some {α β : Type} (f : α → Option β) (g : α → β) (l : List α)
    (h : ∀ a ∈ l, f a = some (g a)) : l.filterMap f = l.map g := by
  induction l with
  | nil => rfl
  | cons x xs ih =>
      rw [List.filterMap_cons, h x (List.mem_cons_self x xs), List.map_cons,
        ih (fun a ha => h a (List.mem_cons_of_mem x ha))]

theorem parse_qsl_pair_enc (kv : Str × Str) :
    parse_qsl_pair (quotePlus kv.1 ++ ['='] ++ quotePlus kv.2) =
      some (unquotePlus (quotePlus kv.1), unquotePlus (quotePlus kv.2)) := by
  have hshape : quotePlus kv.1 ++ ['='] ++ quotePlus kv.2 =
      quotePlus kv.1 ++ '=' :: quotePlus kv.2 := by simp
  obtain ⟨htake, hdrop⟩ := takeWhile_middle (fun c => c ≠ '=') (quotePlus kv.1) '='
    (quotePlus kv.2)
    (fun x hx => by simpa using (quotePlus_safe kv.1 x hx).2)
    (by decide)
  rw [hshape]
  unfold parse_qsl_pair
  rw [if_neg (by cases hq : quotePlus kv.1 <;> simp [hq])]
  rw [htake, hdrop]

theorem parse_qsl_urlencode (q : List (Str × Str)) (hq : q ≠ []) :
    parse_qsl (urlencode q) =
      q.map (fun kv => (unquotePlus (quotePlus kv.1), unquotePlus (quotePlus kv.2))) := by
  unfold parse_qsl urlencode
  rw [splitSep_intersperse '&' _ (by simpa using hq) ?hsep]
  case hsep =>
    intro p hp hmem
    obtain ⟨kv, _, rfl⟩ := List.mem_map.mp hp
    rcases List.mem_append.mp hmem with hmem1 | hmem2
    · rcases List.mem_append.mp hmem1 with hk | he
      · exact (quotePlus_safe kv.1 '&' hk).1 rfl
      · simp at he
    · exact (quotePlus_safe kv.2 '&' hmem2).1 rfl
  rw [List.filterMap_map]
  exact filterMap_all_some _ _ q (fun kv _ => parse_qsl_pair_enc kv)

/-- The two query dicts built from the same parameters under two
credentials agree: same keys in order, and equal values except possibly
at the fixed `apikey` key. -/
def queryAgree (q1 q2 : List (Str × Str)) : Prop :=
  List.Forall₂ (fun a b => a.1 = b.1 ∧ (a.2 = b.2 ∨ a.1 = S "apikey")) q1 q2

theorem setQueryField_agree (q1 q2 : List (Str × Str)) (key v : Str)
    (h : queryAgree q1 q2) :
    queryAgree (setQueryField q1 key v) (setQueryField q2 key v) := by
  induction h with
  | nil =>
      exact List.Forall₂.cons ⟨rfl, Or.inl rfl⟩ List.Forall₂.nil
  | cons ha htail ih =>
      rename_i a b t1 t2
      obtain ⟨k1r, w1⟩ := a
      obtain ⟨k2r, w2⟩ := b
      obtain ⟨hk, hv⟩ := ha
      simp only at hk
      subst hk
      unfold setQueryField
      by_cases hkey : k1r = key
      · rw [if_pos hkey, if_pos hkey]
        exact List.Forall₂.cons ⟨rfl, Or.inl rfl⟩ htail
      · rw [if_neg hkey, if_neg hkey]
        exact List.Forall₂.cons ⟨rfl, hv⟩ ih

theorem setQueryField_ne_nil (q : List (Str × Str)) (key v : Str) :
    setQueryField q key v ≠ [] := by
  cases q with
  | nil => simp [setQueryField]
  | cons hd tl =>
      obtain ⟨k, w⟩ := hd
      unfold setQueryField
      split <;> simp

theorem fold_query_agree (params : List (Str × Option Str))
    (q1 q2 : List (Str × Str)) (h : queryAgree q1 q2) :
    queryAgree
      (params.foldl (fun q kv =>
        match kv.2 with
        | none => q
        | some v => setQueryField q kv.1 v) q1)
      (params.foldl (fun q kv =>
        match kv.2 with
        | none => q
        | some v => setQueryField q kv.1 v) q2) := by
  induction params generalizing q1 q2 with
  | nil => exact h
  | cons p ps ih =>
      obtain ⟨pk, pv⟩ := p
      rw [List.foldl_cons, List.foldl_cons]
      cases pv with
      | none => exact ih _ _ h
      | some v => exact ih _ _ (setQueryField_agree q1 q2 pk v h)

theorem fold_query_ne_nil (params : List (Str × Option Str))
    (q : List (Str × Str)) (h : q ≠ []) :
    params.foldl (fun q kv =>
      match kv.2 with
      | none => q
      | some v => setQueryField q kv.1 v) q ≠ [] := by
  induction params generalizing q with
  | nil => exact h
  | cons p ps ih =>
      obtain ⟨pk, pv⟩ := p
      rw [List.foldl_cons]
      cases pv with
      | none => exact ih _ h
      | some v => exact ih _ (setQueryField_ne_nil q pk v)

theorem mask_unq_agree (q1 q2 : List (Str × Str)) (h : queryAgree q1 q2) :
    (q1.map (fun kv => (unquotePlus (quotePlus kv.1), unquotePlus (quotePlus kv.2)))).map
      (fun kv => if lower kv.1 = S "apikey" then (kv.1, S "***") else kv) =
    (q2.map (fun kv => (unquotePlus (quotePlus kv.1), unquotePlus (quotePlus kv.2)))).map
      (fun kv => if lower kv.1 = S "apikey" then (kv.1, S "***") else kv) := by
  induction h with
  | nil => rfl
  | cons ha htail ih =>
      rename_i a b t1 t2
      obtain ⟨hk, hv⟩ := ha
      simp only [List.map_cons]
      rw [ih]
      rcases hv with hv | hv
      · rw [show b = (a.1, a.2) from by rw [hk, hv]]
      · have hb1 : b.1 = S "apikey" := hk ▸ hv
        have hm : lower (unquotePlus (quotePlus (S "apikey"))) = S "apikey" := by decide
        obtain ⟨a1, a2⟩ := a
        obtain ⟨b1, b2⟩ := b
        simp only at hv hb1
        subst hv
        subst hb1
        simp [hm]

/-- Masking the credential value makes the redacted URL independent of
the credential: the key appears only as the `apikey` query value, which
`_redact_api_key` replaces with `***`. -/
theorem redact_build_url_key_independent (endpoint : Str)
    (params : List (Str × Option Str)) (k1 k2 : Str)
    (he : ∀ c ∈ endpoint, c ≠ '?') :
    redact_api_key (build_url endpoint k1 params) =
      redact_api_key (build_url endpoint k2 params) := by
  have hsplit : ∀ k : Str,
      let q := params.foldl (fun q kv =>
        match kv.2 with
        | none => q
        | some v => setQueryField q kv.1 v) [(S "apikey", k)]
      redact_api_key (build_url endpoint k params) =
        (FMP_BASE_URL ++ ['/'] ++ endpoint.dropWhile (fun c => c == '/')) ++ ['?'] ++
          urlencode (((q.map (fun kv =>
              (unquotePlus (quotePlus kv.1), unquotePlus (quotePlus kv.2)))).map
            (fun kv => if lower kv.1 = S "apikey" then (kv.1, S "***") else kv))) := by
    intro k
    unfold build_url redact_api_key
    have hfree : ∀ x ∈ (FMP_BASE_URL ++ ['/']) ++
        endpoint.dropWhile (fun c => c == '/'), (fun c => decide (c ≠ '?')) x = true := by
      intro x hx
      rcases List.mem_append.mp hx with hx1 | hx2
      · rcases List.mem_append.mp hx1 with hb | hs
        · have hB : ∀ y ∈ FMP_BASE_URL, y ≠ '?' := by decide
          simpa using hB x hb
        · simp at hs
          subst hs
          decide
      · have hxe : x ∈ endpoint :=
          (List.dropWhile_sublist (fun c => c == '/')).subset hx2
        simpa using he x hxe
    obtain ⟨htake, hdrop⟩ := takeWhile_middle (fun c => c ≠ '?')
      ((FMP_BASE_URL ++ ['/']) ++ endpoint.dropWhile (fun c => c == '/')) '?'
      (urlencode (params.foldl (fun q kv =>
        match kv.2 with
        | none => q
        | some v => setQueryField q kv.1 v) [(S "apikey", k)]))
      hfree (by decide)
    have hshape : FMP_BASE_URL ++ ['/'] ++ endpoint.dropWhile (fun c => c == '/') ++ ['?'] ++
        urlencode (params.foldl (fun q kv =>
          match kv.2 with
          | none => q
          | some v => setQueryField q kv.1 v) [(S "apikey", k)]) =
        ((FMP_BASE_URL ++ ['/']) ++ endpoint.dropWhile (fun c => c == '/')) ++ '?' ::
          urlencode (params.foldl (fun q kv =>
            match kv.2 with
            | none => q
            | some v => setQueryField q kv.1 v) [(S "apikey", k)]) := by
      simp
    rw [hshape, htake, hdrop]
    simp only [parse_qsl_urlencode _
        (fold_query_ne_nil params [(S "apikey", k)] (by simp)),
      List.append_assoc]
  rw [hsplit k1, hsplit k2]
  have hstart : queryAgree [(S "apikey", k1)] [(S "apikey", k2)] :=
    List.Forall₂.cons ⟨rfl, Or.inr rfl⟩ List.Forall₂.nil
  have hagree :
      queryAgree
        (params.foldl (fun q kv =>
          match kv.2 with
          | none => q
          | some v => setQueryField q kv.1 v) [(S "apikey", k1)])
        (params.foldl (fun q kv =>
          match kv.2 with
          | none => q
          | some v => setQueryField q kv.1 v) [(S "apikey", k2)]) :=
    fold_query_agree params _ _ hstart
  rw [mask_unq_agree _ _ hagree]

/-- C7: for every request built by the URL builder and every transport
outcome, the log lines written by the requester are identical for any
two credential values (with otherwise identical inputs and transport
behaviour), because every URL reaching the log goes through
`_redact_api_key`, which masks the `apikey` query value. -/
theorem request_logs_credential_noninterference (endpoint : Str)
    (params : List (Str × Option Str)) (k1 k2 : Str) (outcome : HttpOutcome)
    (he : ∀ c ∈ endpoint, c ≠ '?') :
    redact_api_key (build_url endpoint k1 params) =
      redact_api_key (build_url endpoint k2 params) ∧
    request_json_logs (build_url endpoint k1 params) outcome =
      request_json_logs (build_url endpoint k2 params) outcome := by
  have hred := redact_build_url_key_independent endpoint params k1 k2 he
  refine ⟨hred, ?_⟩
  unfold request_json_logs
  rw [hred]

/-- Witness for C7: two different keys produce identical logs for a
quote request answered with a 401 provider error, and the concrete
redacted URL masks the key. -/
theorem request_logs_credential_noninterference_witness :
    request_json_logs (build_url (S "quote") (S "SECRETKEY1") [(S "symbol", some (S "AAPL"))])
        (.good_json 401 (.obj [(S "Error Message", .str (S "Invalid API KEY"))])) =
      request_json_logs (build_url (S "quote") (S "other") [(S "symbol", some (S "AAPL"))])
        (.good_json 401 (.obj [(S "Error Message", .str (S "Invalid API KEY"))])) ∧
    redact_api_key (build_url (S "quote") (S "SECRETKEY1") [(S "symbol", some (S "AAPL"))]) =
      S "https://financialmodelingprep.com/stable/quote?apikey=%2A%2A%2A&symbol=AAPL" := by
  constructor
  · exact (request_logs_credential_noninterference (S "quote")
      [(S "symbol", some (S "AAPL"))] (S "SECRETKEY1") (S "other")
      (.good_json 401 (.obj [(S "Error Message", .str (S "Invalid API KEY"))]))
      (by decide)).2
  · decide

end Monetrix
